import Mathlib

/-!
# OATMEAL interpreter: shallow embedding and verification

A shallow embedding of the OATMEAL esoteric-language interpreter
(`oatmeal.py`, class `OATMEALInterpreter`) in Lean 4, together with
theorems checking the natural-language specification against the code.

Modelling conventions:
* The tape holds natural numbers (the source maintains non-negativity:
  cells are created at 0, `set_cell_value` clamps with `max 0`,
  decrement is guarded).
* The Python `int` data pointer ranges over `{-1} ∪ [0, len]`, so it is
  an `Int` here.
* Python's `loop_scopes` list used as a stack (append / `[-1]` / `pop`)
  is a Lean list with the head as top of stack.
* The function table (a Python dict) is an association list; definition
  prepends, lookup takes the first match, which realises overwriting.
* `stdin` is a list of lines carried in the state; `stdout` is a string
  accumulated in the state.  `stderr` diagnostics carry no machine state
  and are not modelled.
* Reading function definitions from an external file (`import_functions`)
  is, per the design, an external provider of (name, code) pairs; the
  state carries that provider as an environment.  `os.system` has no
  effect on interpreter state and is modelled as such.
* Nonterminating dispatch loops are modelled with explicit fuel
  (`runLoop`): `runLoop n` executes at most `n` instructions.
-/

/-- Machine state of `OATMEALInterpreter` (fields mirror `__init__`),
plus the external world (stdin lines, stdout text, import provider). -/
structure OatState where
  tape : List Nat
  data_pointer : Int
  instruction_pointer : Nat
  functions : List (List Char × List Char)
  readonly_cells : Finset Nat
  loop_scopes : List (Nat × Nat)
  previous_was_right : Bool
  program : List Char
  stdin : List String
  stdout : String
  importProvider : List Char → List (List Char × List Char)

/-- The goto instruction character `'`. -/
def quoteChar : Char := Char.ofNat 39

/-- The insert-cell instruction character, a double quote. -/
def dquoteChar : Char := Char.ofNat 34

/-- The unicode-input instruction character, a backtick. -/
def btickChar : Char := Char.ofNat 96

/-- Dictionary lookup on the association-list function table: first
match wins (newest definition shadows older ones). -/
def lookupFn : List (List Char × List Char) → List Char → Option (List Char)
  | [], _ => none
  | (n, b) :: rest, name => if n = name then some b else lookupFn rest name

/-- Python slice `text[a:b]`. -/
def sliceList (text : List Char) (a b : Nat) : List Char :=
  (text.drop a).take (b - a)

/-- Python `text.find(c, start)`: first index `≥ start` holding `c`,
`none` for `-1`. -/
def findCharFrom (text : List Char) (c : Char) (start : Nat) : Option Nat :=
  ((text.drop start).findIdx? (· = c)).map (· + start)

/-- The shared scanning loop of `find_matching_backslash` and
`skip_comment`: from `pos` with nesting `depth`, step forward adjusting
the depth on `openC`/`closeC` until the depth reaches 0 or the text
ends; returns the final position and depth.  The loop's `pos < len`
bound is carried by the `gas` argument, always instantiated with the
remaining text length, which makes the recursion structural. -/
def bracketScan (text : List Char) (openC closeC : Char) :
    Nat → Nat → Int → Nat × Int
  | 0, pos, depth => (pos, depth)
  | gas + 1, pos, depth =>
    if depth > 0 then
      bracketScan text openC closeC gas (pos + 1)
        (if text.getD pos ' ' = openC then depth + 1
         else if text.getD pos ' ' = closeC then depth - 1 else depth)
    else (pos, depth)

/-- `find_matching_backslash`: offset of the `\` matching the `/` at
`start_pos`, or `none` (Python `-1`) if the text ends first. -/
def find_matching_backslash (text : List Char) (start_pos : Nat) : Option Nat :=
  if (bracketScan text '/' '\\' (text.length - (start_pos + 1)) (start_pos + 1) 1).2 = 0
  then some ((bracketScan text '/' '\\' (text.length - (start_pos + 1))
    (start_pos + 1) 1).1 - 1)
  else none

/-- `skip_comment`: position one past the `]` matching the `[` at the
instruction pointer (or the end of text when unmatched). -/
def skip_comment (text : List Char) (ip : Nat) : Nat :=
  (bracketScan text '[' ']' (text.length - (ip + 1)) (ip + 1) 1).1

/-- `get_cell_value`: cell at `position`, 0 when off the tape. -/
def get_cell_value (s : OatState) (position : Int) : Nat :=
  if 0 ≤ position ∧ position < (s.tape.length : Int) then
    s.tape.getD position.toNat 0
  else 0

/-- `is_on_tape`: the data pointer addresses an existing cell. -/
def is_on_tape (s : OatState) : Prop :=
  0 ≤ s.data_pointer ∧ s.data_pointer < (s.tape.length : Int)

instance (s : OatState) : Decidable (is_on_tape s) := by
  unfold is_on_tape; infer_instance

/-- The data pointer as a tape index (meaningful when on tape). -/
def dpN (s : OatState) : Nat := s.data_pointer.toNat

/-- `move_data_pointer_right`, with wrap past the after-last sentinel. -/
def move_data_pointer_right (s : OatState) : OatState :=
  if s.tape.length = 0 then { s with data_pointer := 0 }
  else if s.data_pointer + 1 > (s.tape.length : Int) then { s with data_pointer := -1 }
  else { s with data_pointer := s.data_pointer + 1 }

/-- `move_data_pointer_left`, with wrap past the before-first sentinel. -/
def move_data_pointer_left (s : OatState) : OatState :=
  if s.tape.length = 0 then { s with data_pointer := 0 }
  else if s.data_pointer - 1 < -1 then { s with data_pointer := (s.tape.length : Int) }
  else { s with data_pointer := s.data_pointer - 1 }

/-- `increment_cell`. -/
def increment_cell (s : OatState) : OatState :=
  if is_on_tape s ∧ dpN s ∉ s.readonly_cells then
    { s with tape := s.tape.set (dpN s) (s.tape.getD (dpN s) 0 + 1) }
  else s

/-- `decrement_cell` (floors at 0). -/
def decrement_cell (s : OatState) : OatState :=
  if is_on_tape s ∧ dpN s ∉ s.readonly_cells then
    if s.tape.getD (dpN s) 0 > 0 then
      { s with tape := s.tape.set (dpN s) (s.tape.getD (dpN s) 0 - 1) }
    else s
  else s

/-- `insert_cell_command`: insert a zero cell at the data pointer,
renumbering the read-only set. -/
def insert_cell_command (s : OatState) : OatState :=
  if s.tape.length = 0 then
    { s with tape := [0], data_pointer := 0 }
  else if s.data_pointer = -1 then
    { s with tape := 0 :: s.tape, data_pointer := 0,
             readonly_cells := s.readonly_cells.image (· + 1) }
  else if s.data_pointer ≥ (s.tape.length : Int) then
    { s with tape := s.tape ++ [0], data_pointer := (s.tape.length : Int) }
  else
    { s with tape := s.tape.insertIdx (dpN s) 0,
             readonly_cells :=
               s.readonly_cells.image (fun i => if dpN s ≤ i then i + 1 else i) }

/-- `logical_not` (0 ↔ 1, nonzero ↦ 0). -/
def logical_not (s : OatState) : OatState :=
  if is_on_tape s ∧ dpN s ∉ s.readonly_cells then
    { s with tape := s.tape.set (dpN s) (if s.tape.getD (dpN s) 0 = 0 then 1 else 0) }
  else s

/-- The `for i in range(len(tape))` loop of `distribute_value`: add
`value` to every non-readonly cell other than `dp`. -/
def distributeLoop (t : List Nat) (dp : Nat) (ro : Finset Nat) (value : Nat) : List Nat :=
  (List.range t.length).foldl
    (fun acc i => if i ≠ dp ∧ i ∉ ro then acc.set i (acc.getD i 0 + value) else acc) t

/-- `distribute_value`: zero the current cell, add its old value to all
other mutable cells. -/
def distribute_value (s : OatState) : OatState :=
  if is_on_tape s ∧ dpN s ∉ s.readonly_cells then
    { s with tape := distributeLoop (s.tape.set (dpN s) 0) (dpN s) s.readonly_cells
                       (s.tape.getD (dpN s) 0) }
  else s

/-- `delete_cell`: remove the current cell, renumber the read-only set,
clamp the pointer back onto the tape. -/
def delete_cell (s : OatState) : OatState :=
  if is_on_tape s ∧ dpN s ∉ s.readonly_cells then
    { s with
      tape := s.tape.eraseIdx (dpN s)
      readonly_cells := ((s.readonly_cells.erase (dpN s)).image
        (fun i => if dpN s < i then i - 1 else i))
      data_pointer :=
        (if s.data_pointer ≥ ((s.tape.eraseIdx (dpN s)).length : Int) ∧
            (s.tape.eraseIdx (dpN s)).length > 0 then
          ((s.tape.eraseIdx (dpN s)).length : Int) - 1
        else if (s.tape.eraseIdx (dpN s)).length = 0 then 0
        else s.data_pointer) }
  else s

/-- Python `int(line)` on one input line: optional sign and decimal
digits after stripping surrounding whitespace, `none` for `ValueError`. -/
def parseIntLine (line : String) : Option Int :=
  let ds := line.trim.toList
  let digits : List Char → Option Nat := fun l =>
    if l ≠ [] ∧ l.all Char.isDigit then
      some (l.foldl (fun n c => n * 10 + (c.toNat - 48)) 0)
    else none
  match ds with
  | '-' :: rest => (digits rest).map (fun n => -(n : Int))
  | '+' :: rest => (digits rest).map (fun n => (n : Int))
  | rest => (digits rest).map (fun n => (n : Int))

/-- `input_number`: read one line, store `max 0 (int line)` in the
current cell; a malformed line or exhausted input is a no-op (the line,
if any, is still consumed). -/
def input_number (s : OatState) : OatState :=
  if is_on_tape s ∧ dpN s ∉ s.readonly_cells then
    match s.stdin with
    | [] => s
    | line :: rest =>
      match parseIntLine line with
      | some v => { s with stdin := rest,
                           tape := s.tape.set (dpN s) (max 0 v).toNat }
      | none => { s with stdin := rest }
  else s

/-- `input_unicode`: read one line, store the code point of its first
character; empty line or exhausted input is a no-op. -/
def input_unicode (s : OatState) : OatState :=
  if is_on_tape s ∧ dpN s ∉ s.readonly_cells then
    match s.stdin with
    | [] => s
    | line :: rest =>
      match line.toList with
      | [] => { s with stdin := rest }
      | c :: _ => { s with stdin := rest, tape := s.tape.set (dpN s) c.toNat }
  else s

/-- `output_number`: print the current cell as a decimal number; prints
nothing when the pointer is off the tape. -/
def output_number (s : OatState) : OatState :=
  if is_on_tape s then
    { s with stdout := s.stdout ++ toString (s.tape.getD (dpN s) 0) }
  else s

/-- `output_unicode`: print the current cell as a character; prints
nothing when the pointer is off the tape or `chr` fails (value not a
valid code point). -/
def output_unicode (s : OatState) : OatState :=
  if is_on_tape s then
    if (s.tape.getD (dpN s) 0).isValidChar then
      { s with stdout := s.stdout.push (Char.ofNat (s.tape.getD (dpN s) 0)) }
    else s
  else s

/-- `toggle_readonly`. -/
def toggle_readonly (s : OatState) : OatState :=
  if is_on_tape s then
    if dpN s ∈ s.readonly_cells then
      { s with readonly_cells := s.readonly_cells.erase (dpN s) }
    else
      { s with readonly_cells := insert (dpN s) s.readonly_cells }
  else s

/-- `define_function`: store/overwrite a table entry. -/
def define_function (s : OatState) (name code : List Char) : OatState :=
  { s with functions := (name, code) :: s.functions }

/-- The jump-position scan of `goto_command`:
`for i in range(i0, i0 + gas)` collecting offsets of the goto character
at relative nesting `depth = 0`, tracking `/` and `\`; the loop's upper
bound `loop_end` is carried as the remaining count `gas`. -/
def collectJumps (text : List Char) : Nat → Nat → Int → List Nat
  | 0, _, _ => []
  | gas + 1, i, depth =>
    if text.getD i ' ' = '/' then collectJumps text gas (i + 1) (depth + 1)
    else if text.getD i ' ' = '\\' then collectJumps text gas (i + 1) (depth - 1)
    else if text.getD i ' ' = quoteChar ∧ depth = 0 then
      i :: collectJumps text gas (i + 1) depth
    else collectJumps text gas (i + 1) depth

/-- `goto_command`: the value-directed branch primitive. -/
def goto_command (s : OatState) : OatState :=
  if s.instruction_pointer > 0 ∧
      s.program.getD (s.instruction_pointer - 1) ' ' = '/' then
    { s with instruction_pointer := s.instruction_pointer + 1 }
  else
    match s.loop_scopes with
    | [] => { s with instruction_pointer := s.instruction_pointer + 1 }
    | (loop_start, loop_end) :: _ =>
      if get_cell_value s s.data_pointer = 0 then
        { s with instruction_pointer := loop_end + 1 }
      else
        if 1 ≤ get_cell_value s s.data_pointer ∧
            get_cell_value s s.data_pointer ≤
              (collectJumps s.program (loop_end - (loop_start + 1)) (loop_start + 1) 0).length then
          { s with instruction_pointer :=
              ((collectJumps s.program (loop_end - (loop_start + 1)) (loop_start + 1) 0).getD
                (get_cell_value s s.data_pointer - 1) 0) }
        else
          { s with instruction_pointer := s.instruction_pointer + 1 }

/-- `import_functions`: register every (name, code) pair the external
resource provides, overwriting same-named entries; an unreadable
resource provides nothing (the diagnostic is not machine state). -/
def import_functions (s : OatState) (filename : List Char) : OatState :=
  { s with functions :=
      (s.importProvider filename).foldl (fun fns nc => nc :: fns) s.functions }

/-- `call_function`, parameterized by the dispatch loop used to run the
body: save `(program, instruction_pointer, loop_scopes)`, run the body
from offset 0 with an empty scope stack, restore the saved triple.
Tape, data pointer and read-only set are shared, not restored. -/
def call_functionWith (runBody : OatState → OatState) (s : OatState)
    (name : List Char) : OatState :=
  match lookupFn s.functions name with
  | none => s
  | some code =>
    { runBody { s with program := code, instruction_pointer := 0,
                       loop_scopes := [] } with
      program := s.program,
      instruction_pointer := s.instruction_pointer,
      loop_scopes := s.loop_scopes }

/-- The `{` branch of `execute_instruction`: inline function
definition `\x7b@name@code@\x7d`; on any malformed shape only the
instruction pointer advances (and `previous_was_right` is left as it
was, mirroring the early `return True` in the source). -/
def braceStep (s : OatState) : OatState :=
  if s.instruction_pointer + 1 < s.program.length ∧
      s.program.getD (s.instruction_pointer + 1) ' ' = '@' then
    match findCharFrom s.program '@' (s.instruction_pointer + 2) with
    | some name_end =>
      match findCharFrom s.program '@' (name_end + 1) with
      | some code_end =>
        { define_function s (sliceList s.program (s.instruction_pointer + 2) name_end)
            (sliceList s.program (name_end + 1) code_end) with
          instruction_pointer := code_end + 2, previous_was_right := false }
      | none => { s with instruction_pointer := s.instruction_pointer + 1 }
    | none => { s with instruction_pointer := s.instruction_pointer + 1 }
  else { s with instruction_pointer := s.instruction_pointer + 1 }

/-- The `=` branch of `execute_instruction`: function call `=@name=`,
shell command `=$$cmd=` (an external effect, no interpreter state), or
the import directive `=$file=`. -/
def equalsStep (runBody : OatState → OatState) (s : OatState) : OatState :=
  if s.instruction_pointer + 1 < s.program.length then
    if s.program.getD (s.instruction_pointer + 1) ' ' = '@' then
      match findCharFrom s.program '=' (s.instruction_pointer + 2) with
      | some name_end =>
        { call_functionWith runBody s
            (sliceList s.program (s.instruction_pointer + 2) name_end) with
          instruction_pointer := name_end + 1, previous_was_right := false }
      | none =>
        { s with instruction_pointer := s.instruction_pointer + 1,
                 previous_was_right := false }
    else if s.program.getD (s.instruction_pointer + 1) ' ' = '$' then
      if s.instruction_pointer + 2 < s.program.length ∧
          s.program.getD (s.instruction_pointer + 2) ' ' = '$' then
        -- `execute_shell_command` reaches out to the host and does not
        -- touch interpreter state.
        match findCharFrom s.program '=' (s.instruction_pointer + 3) with
        | some cmd_end =>
          { s with instruction_pointer := cmd_end + 1, previous_was_right := false }
        | none =>
          { s with instruction_pointer := s.instruction_pointer + 1,
                   previous_was_right := false }
      else
        match findCharFrom s.program '=' (s.instruction_pointer + 2) with
        | some file_end =>
          { import_functions s (sliceList s.program (s.instruction_pointer + 2) file_end) with
            instruction_pointer := file_end + 1, previous_was_right := false }
        | none =>
          { s with instruction_pointer := s.instruction_pointer + 1,
                   previous_was_right := false }
    else
      { s with instruction_pointer := s.instruction_pointer + 1,
               previous_was_right := false }
  else
    { s with instruction_pointer := s.instruction_pointer + 1,
             previous_was_right := false }

/-- The `/` branch of `execute_instruction`: open a loop scope when a
matching backslash exists. -/
def slashStep (s : OatState) : OatState :=
  { (match find_matching_backslash s.program s.instruction_pointer with
     | some end_pos => { s with loop_scopes := (s.instruction_pointer, end_pos) :: s.loop_scopes }
     | none => s) with
    instruction_pointer := s.instruction_pointer + 1, previous_was_right := false }

/-- One step of `execute_instruction`, parameterized by the dispatch
loop used for function-call bodies.  Returns the state unchanged when
the instruction pointer is past the end (the `return False` case). -/
def execute_instructionWith (runBody : OatState → OatState) (s : OatState) : OatState :=
  if s.instruction_pointer < s.program.length then
    if s.program.getD s.instruction_pointer ' ' = '[' then
      { s with instruction_pointer := skip_comment s.program s.instruction_pointer,
               previous_was_right := false }
    else if s.program.getD s.instruction_pointer ' ' = '{' then
      braceStep s
    else if s.program.getD s.instruction_pointer ' ' = '=' then
      equalsStep runBody s
    else if s.program.getD s.instruction_pointer ' ' = '>' then
      { move_data_pointer_right s with instruction_pointer := s.instruction_pointer + 1,
                                       previous_was_right := true }
    else if s.program.getD s.instruction_pointer ' ' = '<' then
      { move_data_pointer_left s with instruction_pointer := s.instruction_pointer + 1,
                                      previous_was_right := false }
    else if s.program.getD s.instruction_pointer ' ' = '^' then
      { increment_cell s with instruction_pointer := s.instruction_pointer + 1, previous_was_right := false }
    else if s.program.getD s.instruction_pointer ' ' = 'v' then
      { decrement_cell s with instruction_pointer := s.instruction_pointer + 1, previous_was_right := false }
    else if s.program.getD s.instruction_pointer ' ' = dquoteChar then
      { (if s.previous_was_right then insert_cell_command s else s) with
        instruction_pointer := s.instruction_pointer + 1, previous_was_right := false }
    else if s.program.getD s.instruction_pointer ' ' = quoteChar then
      { goto_command s with previous_was_right := false }
    else if s.program.getD s.instruction_pointer ' ' = '/' then
      slashStep s
    else if s.program.getD s.instruction_pointer ' ' = '\\' then
      { s with loop_scopes := s.loop_scopes.tail,
               instruction_pointer := s.instruction_pointer + 1, previous_was_right := false }
    else if s.program.getD s.instruction_pointer ' ' = '!' then
      { logical_not s with instruction_pointer := s.instruction_pointer + 1, previous_was_right := false }
    else if s.program.getD s.instruction_pointer ' ' = '&' then
      { distribute_value s with instruction_pointer := s.instruction_pointer + 1, previous_was_right := false }
    else if s.program.getD s.instruction_pointer ' ' = ';' then
      { s with instruction_pointer := s.instruction_pointer + 1, previous_was_right := false }
    else if s.program.getD s.instruction_pointer ' ' = '?' then
      { s with instruction_pointer := s.instruction_pointer + 1, previous_was_right := false }
    else if s.program.getD s.instruction_pointer ' ' = ':' then
      { delete_cell s with instruction_pointer := s.instruction_pointer + 1, previous_was_right := false }
    else if s.program.getD s.instruction_pointer ' ' = '~' then
      { input_number s with instruction_pointer := s.instruction_pointer + 1, previous_was_right := false }
    else if s.program.getD s.instruction_pointer ' ' = btickChar then
      { input_unicode s with instruction_pointer := s.instruction_pointer + 1, previous_was_right := false }
    else if s.program.getD s.instruction_pointer ' ' = '_' then
      { output_number s with instruction_pointer := s.instruction_pointer + 1, previous_was_right := false }
    else if s.program.getD s.instruction_pointer ' ' = '-' then
      { output_unicode s with instruction_pointer := s.instruction_pointer + 1, previous_was_right := false }
    else if s.program.getD s.instruction_pointer ' ' = '%' then
      { toggle_readonly s with instruction_pointer := s.instruction_pointer + 1, previous_was_right := false }
    else if s.program.getD s.instruction_pointer ' ' = '.' then
      { s with instruction_pointer := s.instruction_pointer + 1, previous_was_right := false }
    else
      { s with instruction_pointer := s.instruction_pointer + 1, previous_was_right := false }
  else s

/-- The dispatch loop (`while instruction_pointer < len(program)`), with
fuel bounding the number of executed instructions.  Function calls run
their bodies with the remaining fuel. -/
def runLoop : Nat → OatState → OatState
  | 0, s => s
  | n + 1, s =>
    if s.instruction_pointer < s.program.length then
      runLoop n (execute_instructionWith (runLoop n) s)
    else s

/-- One `execute_instruction` step at a given fuel for nested calls. -/
def execute_instruction (fuel : Nat) (s : OatState) : OatState :=
  execute_instructionWith (runLoop fuel) s

/-- `call_function` at a given fuel for the body's dispatch loop. -/
def call_function (fuel : Nat) (s : OatState) (name : List Char) : OatState :=
  call_functionWith (runLoop fuel) s name

/-- The machine state at the start of `run(program)`: fresh tape,
pointers, read-only set and scope stack; the function table survives
from previous runs of the same interpreter. -/
def initState (program : List Char) (fns : List (List Char × List Char))
    (stdin : List String) (prov : List Char → List (List Char × List Char)) : OatState :=
  { tape := [], data_pointer := 0, instruction_pointer := 0, functions := fns,
    readonly_cells := ∅, loop_scopes := [], previous_was_right := false,
    program := program, stdin := stdin, stdout := "", importProvider := prov }

/-- Initial state with no prior functions, no input, empty import
provider. -/
def initState0 (program : List Char) : OatState :=
  initState program [] [] (fun _ => [])

/-- Nesting depth contributed by the bracket characters in the `gas`
positions of `text` starting at `i` (the span `[i, i + gas)`): `/`
counts `+1`, `\` counts `-1`. -/
def depthFrom (text : List Char) : Nat → Nat → Int
  | 0, _ => 0
  | gas + 1, i =>
    (if text.getD i ' ' = '/' then 1
     else if text.getD i ' ' = '\\' then -1 else 0) + depthFrom text gas (i + 1)

/-- The jump points of a scope `(start, e)` as the specification words
them: the offsets strictly between `start` and `e` holding the goto
character at nesting depth 0 relative to the scope, in left-to-right
order. -/
def specJumps (text : List Char) (start e : Nat) : List Nat :=
  (List.range' (start + 1) (e - (start + 1))).filter
    (fun p => decide (text.getD p ' ' = quoteChar ∧
      depthFrom text (p - (start + 1)) (start + 1) = 0))

/-- The tape index in front of which `insert_cell_command` places the
new cell (`len` means append after the last cell). -/
def insertIndex (s : OatState) : Nat :=
  if s.tape.length = 0 then 0
  else if s.data_pointer = -1 then 0
  else if s.data_pointer ≥ (s.tape.length : Int) then s.tape.length
  else dpN s

/-- The state produced by running a function body `code` in the dispatch
loop from offset 0 with a fresh scope stack, sharing all other state
with `s` (the inner execution inside `call_function`). -/
def bodyRun (fuel : Nat) (s : OatState) (code : List Char) : OatState :=
  runLoop fuel { s with program := code, instruction_pointer := 0, loop_scopes := [] }

/-- Every character that `execute_instruction` recognises, either as a
single-character instruction or as the lead of a multi-character
construct; everything else falls into the final catch-all branch. -/
def recognizedChars : List Char :=
  ['[', '{', '=', '>', '<', '^', 'v', dquoteChar, quoteChar, '/', '\\',
   '!', '&', ';', '?', ':', '~', btickChar, '_', '-', '%', '.']

/-- The data-pointer bounds invariant of the specification:
`-1 ≤ pointer ≤ len(cells)`. -/
def pointerInBounds (s : OatState) : Prop :=
  -1 ≤ s.data_pointer ∧ s.data_pointer ≤ (s.tape.length : Int)

/-! ## Concrete machine states used to exercise the theorems -/

/-- A state about to dispatch a goto with cell value 0 inside the scope
`(1, 5)`, not preceded by the scope-open character. -/
def gotoZeroState : OatState :=
  { tape := [], data_pointer := 0, instruction_pointer := 3, functions := [],
    readonly_cells := ∅, loop_scopes := [(1, 5)], previous_was_right := false,
    program := ['a', 'b', 'c', quoteChar, 'd', 'e', 'f'], stdin := [], stdout := "",
    importProvider := fun _ => [] }

/-- A state about to dispatch a goto with cell value 2 inside the scope
`(0, 6)` holding three depth-0 goto points at offsets 1, 3, 5. -/
def gotoJumpState : OatState :=
  { tape := [2], data_pointer := 0, instruction_pointer := 3, functions := [],
    readonly_cells := ∅, loop_scopes := [(0, 6)], previous_was_right := false,
    program := ['/', quoteChar, 'x', quoteChar, 'y', quoteChar, '\\'], stdin := [],
    stdout := "", importProvider := fun _ => [] }

/-- A state with one registered function `f` with body `^`, a one-cell
tape, and a nonempty control context to be restored. -/
def callState : OatState :=
  { tape := [1], data_pointer := 0, instruction_pointer := 1, functions := [(['f'], ['^'])],
    readonly_cells := ∅, loop_scopes := [(2, 4)], previous_was_right := false,
    program := ['x', 'y', 'z', 'w', 'u'], stdin := [], stdout := "",
    importProvider := fun _ => [] }

/-- A three-cell tape with the pointer in the middle and read-only
cells on both sides, for the renumbering theorem. -/
def renumberState : OatState :=
  { tape := [1, 2, 3], data_pointer := 1, instruction_pointer := 0, functions := [],
    readonly_cells := {0, 2}, loop_scopes := [], previous_was_right := false,
    program := [], stdin := [], stdout := "", importProvider := fun _ => [] }

/-- A three-cell tape with a read-only first cell, for the distribute
theorem. -/
def distributeState : OatState :=
  { tape := [3, 4, 5], data_pointer := 1, instruction_pointer := 0, functions := [],
    readonly_cells := {0}, loop_scopes := [], previous_was_right := false,
    program := [], stdin := [], stdout := "", importProvider := fun _ => [] }

/-- A state whose current instruction character is not a recognised
instruction. -/
def unknownCharState : OatState :=
  { tape := [4], data_pointer := 0, instruction_pointer := 0, functions := [],
    readonly_cells := ∅, loop_scopes := [], previous_was_right := false,
    program := ['x', 'y'], stdin := [], stdout := "", importProvider := fun _ => [] }

/-- A two-cell tape with the pointer on the last cell, for the delete
clamping theorem. -/
def deleteState : OatState :=
  { tape := [5, 7], data_pointer := 1, instruction_pointer := 0, functions := [],
    readonly_cells := ∅, loop_scopes := [], previous_was_right := false,
    program := [], stdin := [], stdout := "", importProvider := fun _ => [] }

/-- An empty-tape state about to dispatch the output-number
instruction with the pointer off the tape. -/
def offTapeState : OatState :=
  { tape := [], data_pointer := 0, instruction_pointer := 0, functions := [],
    readonly_cells := ∅, loop_scopes := [], previous_was_right := false,
    program := ['_'], stdin := [], stdout := "", importProvider := fun _ => [] }

/-! ## Basic list lemmas -/

lemma getD_set_self (l : List Nat) (i v : Nat) (h : i < l.length) :
    (l.set i v).getD i 0 = v := by
  simp [List.getD_eq_getElem?_getD, List.getElem?_set, h]

lemma getD_set_ne (l : List Nat) (i j v : Nat) (h : i ≠ j) :
    (l.set i v).getD j 0 = l.getD j 0 := by
  simp [List.getD_eq_getElem?_getD, List.getElem?_set, h]

/-! ## The distribute loop -/

lemma distributeFold_length (dp : Nat) (ro : Finset Nat) (value : Nat) :
    ∀ (idxs : List Nat) (t : List Nat),
      (idxs.foldl
        (fun acc i => if i ≠ dp ∧ i ∉ ro then acc.set i (acc.getD i 0 + value) else acc)
        t).length = t.length
  | [], _ => rfl
  | i :: idxs, t => by
    simp only [List.foldl_cons]
    rw [distributeFold_length dp ro value idxs]
    split <;> simp

lemma distributeFold_getD (dp : Nat) (ro : Finset Nat) (value : Nat) :
    ∀ (n : Nat) (t : List Nat), n ≤ t.length → ∀ j : Nat,
      ((List.range n).foldl
        (fun acc i => if i ≠ dp ∧ i ∉ ro then acc.set i (acc.getD i 0 + value) else acc)
        t).getD j 0 =
      if j < n ∧ j ≠ dp ∧ j ∉ ro then t.getD j 0 + value else t.getD j 0 := by
  intro n
  induction n with
  | zero => intro t _ j; simp
  | succ n ih =>
    intro t hn j
    rw [List.range_succ, List.foldl_append]
    set T := (List.range n).foldl
      (fun acc i => if i ≠ dp ∧ i ∉ ro then acc.set i (acc.getD i 0 + value) else acc) t
      with hT
    have hTlen : T.length = t.length := distributeFold_length dp ro value _ t
    simp only [List.foldl_cons, List.foldl_nil]
    by_cases hcond : n ≠ dp ∧ n ∉ ro
    · rw [if_pos hcond]
      by_cases hj : j = n
      · subst hj
        rw [getD_set_self _ _ _ (by omega)]
        rw [ih t (by omega) j]
        simp [hcond, Nat.lt_irrefl]
      · rw [getD_set_ne _ _ _ _ (fun h => hj h.symm)]
        rw [ih t (by omega) j]
        by_cases hlt : j < n
        · simp [hlt, Nat.lt_succ_of_lt hlt]
        · have : ¬ j < n + 1 := by omega
          simp [hlt, this]
    · rw [if_neg hcond]
      rw [ih t (by omega) j]
      by_cases hj : j = n
      · subst hj
        rw [if_neg (by simp [Nat.lt_irrefl]), if_neg (fun h => hcond ⟨h.2.1, h.2.2⟩)]
      · by_cases hlt : j < n
        · simp [hlt, Nat.lt_succ_of_lt hlt]
        · have : ¬ j < n + 1 := by omega
          simp [hlt, this]

lemma distributeLoop_length (t : List Nat) (dp : Nat) (ro : Finset Nat) (v : Nat) :
    (distributeLoop t dp ro v).length = t.length := by
  unfold distributeLoop
  exact distributeFold_length dp ro v _ t

lemma distributeLoop_getD (t : List Nat) (dp : Nat) (ro : Finset Nat) (v : Nat) (j : Nat) :
    (distributeLoop t dp ro v).getD j 0 =
      if j < t.length ∧ j ≠ dp ∧ j ∉ ro then t.getD j 0 + v else t.getD j 0 := by
  unfold distributeLoop
  exact distributeFold_getD dp ro v t.length t (le_refl _) j

/-! ## The goto jump scan -/

lemma quoteChar_ne_slash : quoteChar ≠ '/' := by decide

lemma quoteChar_ne_backslash : quoteChar ≠ '\\' := by decide

lemma collectJumps_eq (text : List Char) :
    ∀ (gas i : Nat) (d : Int),
      collectJumps text gas i d =
      (List.range' i gas).filter
        (fun p => decide (text.getD p ' ' = quoteChar ∧
          d + depthFrom text (p - i) i = 0)) := by
  intro gas
  induction gas with
  | zero => intro i d; rfl
  | succ g ih =>
    intro i d
    rw [List.range'_succ, List.filter_cons]
    have hd0 : depthFrom text (i - i) i = 0 := by
      rw [Nat.sub_self]
      rfl
    by_cases hc1 : text.getD i ' ' = '/'
    · rw [collectJumps, if_pos hc1, ih]
      have hhead : ¬ (text.getD i ' ' = quoteChar ∧ d + depthFrom text (i - i) i = 0) := by
        rintro ⟨h1, _⟩
        exact quoteChar_ne_slash (h1.symm.trans hc1)
      rw [decide_eq_false hhead, if_neg Bool.false_ne_true]
      apply List.filter_congr
      intro p hp
      have hip : i + 1 ≤ p := (List.mem_range'_1.mp hp).1
      rw [decide_eq_decide]
      have hpi : p - i = (p - (i + 1)) + 1 := by omega
      rw [hpi, depthFrom, if_pos hc1]
      constructor
      · rintro ⟨h1, h2⟩; exact ⟨h1, by omega⟩
      · rintro ⟨h1, h2⟩; exact ⟨h1, by omega⟩
    · by_cases hc2 : text.getD i ' ' = '\\'
      · rw [collectJumps, if_neg hc1, if_pos hc2, ih]
        have hhead : ¬ (text.getD i ' ' = quoteChar ∧
            d + depthFrom text (i - i) i = 0) := by
          rintro ⟨h1, _⟩
          exact quoteChar_ne_backslash (h1.symm.trans hc2)
        rw [decide_eq_false hhead, if_neg Bool.false_ne_true]
        apply List.filter_congr
        intro p hp
        have hip : i + 1 ≤ p := (List.mem_range'_1.mp hp).1
        rw [decide_eq_decide]
        have hpi : p - i = (p - (i + 1)) + 1 := by omega
        rw [hpi, depthFrom, if_neg hc1, if_pos hc2]
        constructor
        · rintro ⟨h1, h2⟩; exact ⟨h1, by omega⟩
        · rintro ⟨h1, h2⟩; exact ⟨h1, by omega⟩
      · by_cases hc3 : text.getD i ' ' = quoteChar ∧ d = 0
        · rw [collectJumps, if_neg hc1, if_neg hc2, if_pos hc3, ih]
          have hhead : text.getD i ' ' = quoteChar ∧ d + depthFrom text (i - i) i = 0 := by
            refine ⟨hc3.1, ?_⟩
            rw [hd0, hc3.2]
            ring
          rw [decide_eq_true hhead, if_pos rfl]
          congr 1
          apply List.filter_congr
          intro p hp
          have hip : i + 1 ≤ p := (List.mem_range'_1.mp hp).1
          rw [decide_eq_decide]
          have hpi : p - i = (p - (i + 1)) + 1 := by omega
          rw [hpi, depthFrom, if_neg hc1, if_neg hc2]
          simp
        · rw [collectJumps, if_neg hc1, if_neg hc2, if_neg hc3, ih]
          have hhead : ¬ (text.getD i ' ' = quoteChar ∧
              d + depthFrom text (i - i) i = 0) := by
            rintro ⟨h1, h2⟩
            rw [hd0] at h2
            exact hc3 ⟨h1, by omega⟩
          rw [decide_eq_false hhead, if_neg Bool.false_ne_true]
          apply List.filter_congr
          intro p hp
          have hip : i + 1 ≤ p := (List.mem_range'_1.mp hp).1
          rw [decide_eq_decide]
          have hpi : p - i = (p - (i + 1)) + 1 := by omega
          rw [hpi, depthFrom, if_neg hc1, if_neg hc2]
          simp

lemma collectJumps_eq_specJumps (text : List Char) (start e : Nat) :
    collectJumps text (e - (start + 1)) (start + 1) 0 = specJumps text start e := by
  rw [collectJumps_eq]
  unfold specJumps
  apply List.filter_congr
  intro p _
  rw [decide_eq_decide]
  constructor
  · rintro ⟨h1, h2⟩; exact ⟨h1, by omega⟩
  · rintro ⟨h1, h2⟩; exact ⟨h1, by omega⟩

lemma specJumps_sorted (text : List Char) (start e : Nat) :
    (specJumps text start e).Pairwise (· < ·) :=
  (List.pairwise_lt_range' _ _).sublist (List.filter_sublist _)

/-! ## Preservation of the data-pointer bounds invariant -/

lemma pointerInBounds_of_same {s s' : OatState} (h : pointerInBounds s)
    (hlen : s'.tape.length = s.tape.length) (hdp : s'.data_pointer = s.data_pointer) :
    pointerInBounds s' := by
  unfold pointerInBounds at *
  rw [hlen, hdp]
  exact h

lemma pointerInBounds_move_right (s : OatState) (h : pointerInBounds s) :
    pointerInBounds (move_data_pointer_right s) := by
  unfold pointerInBounds at *
  unfold move_data_pointer_right
  split_ifs <;> simp_all <;> omega

lemma pointerInBounds_move_left (s : OatState) (h : pointerInBounds s) :
    pointerInBounds (move_data_pointer_left s) := by
  unfold pointerInBounds at *
  unfold move_data_pointer_left
  split_ifs <;> simp_all <;> omega

lemma pointerInBounds_increment (s : OatState) (h : pointerInBounds s) :
    pointerInBounds (increment_cell s) := by
  unfold increment_cell
  split
  · exact pointerInBounds_of_same h (by simp) rfl
  · exact h

lemma pointerInBounds_decrement (s : OatState) (h : pointerInBounds s) :
    pointerInBounds (decrement_cell s) := by
  unfold decrement_cell
  split
  · split
    · exact pointerInBounds_of_same h (by simp) rfl
    · exact h
  · exact h

lemma pointerInBounds_logical_not (s : OatState) (h : pointerInBounds s) :
    pointerInBounds (logical_not s) := by
  unfold logical_not
  split
  · exact pointerInBounds_of_same h (by simp) rfl
  · exact h

lemma pointerInBounds_insert (s : OatState) (h : pointerInBounds s) :
    pointerInBounds (insert_cell_command s) := by
  unfold pointerInBounds at *
  unfold insert_cell_command
  split_ifs with h1 h2 h3
  · simp
  · simp
    omega
  · simp
    omega
  · have hd : dpN s ≤ s.tape.length := by unfold dpN; omega
    simp [List.length_insertIdx _ _ hd]
    omega

lemma pointerInBounds_distribute (s : OatState) (h : pointerInBounds s) :
    pointerInBounds (distribute_value s) := by
  unfold distribute_value
  split
  · refine pointerInBounds_of_same h ?_ rfl
    show (distributeLoop _ _ _ _).length = _
    unfold distributeLoop
    rw [distributeFold_length]
    simp
  · exact h

lemma pointerInBounds_delete (s : OatState) (h : pointerInBounds s) :
    pointerInBounds (delete_cell s) := by
  unfold pointerInBounds at *
  unfold delete_cell
  split
  · rename_i hguard
    obtain ⟨⟨hdp0, hdp1⟩, -⟩ := hguard
    have : (s.tape.eraseIdx (dpN s)).length = s.tape.length - 1 := by
      rw [List.length_eraseIdx]
      have : dpN s < s.tape.length := by unfold dpN at *; omega
      simp [this]
    simp only [this]
    split_ifs <;> simp_all <;> omega
  · exact h

lemma pointerInBounds_input_number (s : OatState) (h : pointerInBounds s) :
    pointerInBounds (input_number s) := by
  unfold input_number
  split
  · split
    · exact h
    · split
      · exact pointerInBounds_of_same h (by simp) rfl
      · exact pointerInBounds_of_same h rfl rfl
  · exact h

lemma pointerInBounds_input_unicode (s : OatState) (h : pointerInBounds s) :
    pointerInBounds (input_unicode s) := by
  unfold input_unicode
  split
  · split
    · exact h
    · split
      · exact pointerInBounds_of_same h rfl rfl
      · exact pointerInBounds_of_same h (by simp) rfl
  · exact h

lemma pointerInBounds_output_number (s : OatState) (h : pointerInBounds s) :
    pointerInBounds (output_number s) := by
  unfold output_number
  split
  · exact pointerInBounds_of_same h rfl rfl
  · exact h

lemma pointerInBounds_output_unicode (s : OatState) (h : pointerInBounds s) :
    pointerInBounds (output_unicode s) := by
  unfold output_unicode
  split
  · split
    · exact pointerInBounds_of_same h rfl rfl
    · exact h
  · exact h

lemma pointerInBounds_toggle (s : OatState) (h : pointerInBounds s) :
    pointerInBounds (toggle_readonly s) := by
  unfold toggle_readonly
  split
  · split
    · exact pointerInBounds_of_same h rfl rfl
    · exact pointerInBounds_of_same h rfl rfl
  · exact h

lemma pointerInBounds_goto (s : OatState) (h : pointerInBounds s) :
    pointerInBounds (goto_command s) := by
  unfold goto_command
  split
  · exact pointerInBounds_of_same h rfl rfl
  · split
    · exact pointerInBounds_of_same h rfl rfl
    · split
      · exact pointerInBounds_of_same h rfl rfl
      · split
        · exact pointerInBounds_of_same h rfl rfl
        · exact pointerInBounds_of_same h rfl rfl

lemma pointerInBounds_call (runBody : OatState → OatState)
    (hrb : ∀ s, pointerInBounds s → pointerInBounds (runBody s))
    (s : OatState) (name : List Char) (h : pointerInBounds s) :
    pointerInBounds (call_functionWith runBody s name) := by
  unfold call_functionWith
  split
  · exact h
  · rename_i code heq
    exact pointerInBounds_of_same
      (hrb { s with program := code, instruction_pointer := 0, loop_scopes := [] }
        (pointerInBounds_of_same h rfl rfl)) rfl rfl

/-! ## Branch equations for one dispatch step -/

lemma exec_eq_stop (runBody : OatState → OatState) (s : OatState)
    (hip : ¬ s.instruction_pointer < s.program.length) :
    execute_instructionWith runBody s = s := by
  unfold execute_instructionWith
  rw [if_neg hip]

lemma exec_eq_comment (runBody : OatState → OatState) (s : OatState)
    (hip : s.instruction_pointer < s.program.length)
    (hc : s.program.getD s.instruction_pointer ' ' = '[') :
    execute_instructionWith runBody s =
      { s with instruction_pointer := skip_comment s.program s.instruction_pointer, previous_was_right := false } := by
  unfold execute_instructionWith
  rw [if_pos hip, hc]
  rw [if_pos rfl]

lemma exec_eq_brace (runBody : OatState → OatState) (s : OatState)
    (hip : s.instruction_pointer < s.program.length)
    (hc : s.program.getD s.instruction_pointer ' ' = '{') :
    execute_instructionWith runBody s =
      braceStep s := by
  unfold execute_instructionWith
  rw [if_pos hip, hc]
  rw [if_neg (by decide : ¬ ('{' = '[')), if_pos rfl]

lemma exec_eq_equals (runBody : OatState → OatState) (s : OatState)
    (hip : s.instruction_pointer < s.program.length)
    (hc : s.program.getD s.instruction_pointer ' ' = '=') :
    execute_instructionWith runBody s =
      equalsStep runBody s := by
  unfold execute_instructionWith
  rw [if_pos hip, hc]
  rw [if_neg (by decide : ¬ ('=' = '[')), if_neg (by decide : ¬ ('=' = '{')), if_pos rfl]

lemma exec_eq_right (runBody : OatState → OatState) (s : OatState)
    (hip : s.instruction_pointer < s.program.length)
    (hc : s.program.getD s.instruction_pointer ' ' = '>') :
    execute_instructionWith runBody s =
      { move_data_pointer_right s with instruction_pointer := s.instruction_pointer + 1, previous_was_right := true } := by
  unfold execute_instructionWith
  rw [if_pos hip, hc]
  rw [if_neg (by decide : ¬ ('>' = '[')), if_neg (by decide : ¬ ('>' = '{')), if_neg (by decide : ¬ ('>' = '=')), if_pos rfl]

lemma exec_eq_left (runBody : OatState → OatState) (s : OatState)
    (hip : s.instruction_pointer < s.program.length)
    (hc : s.program.getD s.instruction_pointer ' ' = '<') :
    execute_instructionWith runBody s =
      { move_data_pointer_left s with instruction_pointer := s.instruction_pointer + 1, previous_was_right := false } := by
  unfold execute_instructionWith
  rw [if_pos hip, hc]
  rw [if_neg (by decide : ¬ ('<' = '[')), if_neg (by decide : ¬ ('<' = '{')), if_neg (by decide : ¬ ('<' = '=')), if_neg (by decide : ¬ ('<' = '>')), if_pos rfl]

lemma exec_eq_caret (runBody : OatState → OatState) (s : OatState)
    (hip : s.instruction_pointer < s.program.length)
    (hc : s.program.getD s.instruction_pointer ' ' = '^') :
    execute_instructionWith runBody s =
      { increment_cell s with instruction_pointer := s.instruction_pointer + 1, previous_was_right := false } := by
  unfold execute_instructionWith
  rw [if_pos hip, hc]
  rw [if_neg (by decide : ¬ ('^' = '[')), if_neg (by decide : ¬ ('^' = '{')), if_neg (by decide : ¬ ('^' = '=')), if_neg (by decide : ¬ ('^' = '>')), if_neg (by decide : ¬ ('^' = '<')), if_pos rfl]

lemma exec_eq_vee (runBody : OatState → OatState) (s : OatState)
    (hip : s.instruction_pointer < s.program.length)
    (hc : s.program.getD s.instruction_pointer ' ' = 'v') :
    execute_instructionWith runBody s =
      { decrement_cell s with instruction_pointer := s.instruction_pointer + 1, previous_was_right := false } := by
  unfold execute_instructionWith
  rw [if_pos hip, hc]
  rw [if_neg (by decide : ¬ ('v' = '[')), if_neg (by decide : ¬ ('v' = '{')), if_neg (by decide : ¬ ('v' = '=')), if_neg (by decide : ¬ ('v' = '>')), if_neg (by decide : ¬ ('v' = '<')), if_neg (by decide : ¬ ('v' = '^')), if_pos rfl]

lemma exec_eq_dquote (runBody : OatState → OatState) (s : OatState)
    (hip : s.instruction_pointer < s.program.length)
    (hc : s.program.getD s.instruction_pointer ' ' = dquoteChar) :
    execute_instructionWith runBody s =
      { (if s.previous_was_right then insert_cell_command s else s) with
        instruction_pointer := s.instruction_pointer + 1, previous_was_right := false } := by
  unfold execute_instructionWith
  rw [if_pos hip, hc]
  rw [if_neg (by decide : ¬ (dquoteChar = '[')), if_neg (by decide : ¬ (dquoteChar = '{')), if_neg (by decide : ¬ (dquoteChar = '=')), if_neg (by decide : ¬ (dquoteChar = '>')), if_neg (by decide : ¬ (dquoteChar = '<')), if_neg (by decide : ¬ (dquoteChar = '^')), if_neg (by decide : ¬ (dquoteChar = 'v')), if_pos rfl]

lemma exec_eq_quote (runBody : OatState → OatState) (s : OatState)
    (hip : s.instruction_pointer < s.program.length)
    (hc : s.program.getD s.instruction_pointer ' ' = quoteChar) :
    execute_instructionWith runBody s =
      { goto_command s with previous_was_right := false } := by
  unfold execute_instructionWith
  rw [if_pos hip, hc]
  rw [if_neg (by decide : ¬ (quoteChar = '[')), if_neg (by decide : ¬ (quoteChar = '{')), if_neg (by decide : ¬ (quoteChar = '=')), if_neg (by decide : ¬ (quoteChar = '>')), if_neg (by decide : ¬ (quoteChar = '<')), if_neg (by decide : ¬ (quoteChar = '^')), if_neg (by decide : ¬ (quoteChar = 'v')), if_neg (by decide : ¬ (quoteChar = dquoteChar)), if_pos rfl]

lemma exec_eq_slash (runBody : OatState → OatState) (s : OatState)
    (hip : s.instruction_pointer < s.program.length)
    (hc : s.program.getD s.instruction_pointer ' ' = '/') :
    execute_instructionWith runBody s =
      slashStep s := by
  unfold execute_instructionWith
  rw [if_pos hip, hc]
  rw [if_neg (by decide : ¬ ('/' = '[')), if_neg (by decide : ¬ ('/' = '{')), if_neg (by decide : ¬ ('/' = '=')), if_neg (by decide : ¬ ('/' = '>')), if_neg (by decide : ¬ ('/' = '<')), if_neg (by decide : ¬ ('/' = '^')), if_neg (by decide : ¬ ('/' = 'v')), if_neg (by decide : ¬ ('/' = dquoteChar)), if_neg (by decide : ¬ ('/' = quoteChar)), if_pos rfl]

lemma exec_eq_backslash (runBody : OatState → OatState) (s : OatState)
    (hip : s.instruction_pointer < s.program.length)
    (hc : s.program.getD s.instruction_pointer ' ' = '\\') :
    execute_instructionWith runBody s =
      { s with loop_scopes := s.loop_scopes.tail,
               instruction_pointer := s.instruction_pointer + 1,
               previous_was_right := false } := by
  unfold execute_instructionWith
  rw [if_pos hip, hc]
  rw [if_neg (by decide : ¬ ('\\' = '[')), if_neg (by decide : ¬ ('\\' = '{')), if_neg (by decide : ¬ ('\\' = '=')), if_neg (by decide : ¬ ('\\' = '>')), if_neg (by decide : ¬ ('\\' = '<')), if_neg (by decide : ¬ ('\\' = '^')), if_neg (by decide : ¬ ('\\' = 'v')), if_neg (by decide : ¬ ('\\' = dquoteChar)), if_neg (by decide : ¬ ('\\' = quoteChar)), if_neg (by decide : ¬ ('\\' = '/')), if_pos rfl]

lemma exec_eq_bang (runBody : OatState → OatState) (s : OatState)
    (hip : s.instruction_pointer < s.program.length)
    (hc : s.program.getD s.instruction_pointer ' ' = '!') :
    execute_instructionWith runBody s =
      { logical_not s with instruction_pointer := s.instruction_pointer + 1, previous_was_right := false } := by
  unfold execute_instructionWith
  rw [if_pos hip, hc]
  rw [if_neg (by decide : ¬ ('!' = '[')), if_neg (by decide : ¬ ('!' = '{')), if_neg (by decide : ¬ ('!' = '=')), if_neg (by decide : ¬ ('!' = '>')), if_neg (by decide : ¬ ('!' = '<')), if_neg (by decide : ¬ ('!' = '^')), if_neg (by decide : ¬ ('!' = 'v')), if_neg (by decide : ¬ ('!' = dquoteChar)), if_neg (by decide : ¬ ('!' = quoteChar)), if_neg (by decide : ¬ ('!' = '/')), if_neg (by decide : ¬ ('!' = '\\')), if_pos rfl]

lemma exec_eq_amp (runBody : OatState → OatState) (s : OatState)
    (hip : s.instruction_pointer < s.program.length)
    (hc : s.program.getD s.instruction_pointer ' ' = '&') :
    execute_instructionWith runBody s =
      { distribute_value s with instruction_pointer := s.instruction_pointer + 1, previous_was_right := false } := by
  unfold execute_instructionWith
  rw [if_pos hip, hc]
  rw [if_neg (by decide : ¬ ('&' = '[')), if_neg (by decide : ¬ ('&' = '{')), if_neg (by decide : ¬ ('&' = '=')), if_neg (by decide : ¬ ('&' = '>')), if_neg (by decide : ¬ ('&' = '<')), if_neg (by decide : ¬ ('&' = '^')), if_neg (by decide : ¬ ('&' = 'v')), if_neg (by decide : ¬ ('&' = dquoteChar)), if_neg (by decide : ¬ ('&' = quoteChar)), if_neg (by decide : ¬ ('&' = '/')), if_neg (by decide : ¬ ('&' = '\\')), if_neg (by decide : ¬ ('&' = '!')), if_pos rfl]

lemma exec_eq_semi (runBody : OatState → OatState) (s : OatState)
    (hip : s.instruction_pointer < s.program.length)
    (hc : s.program.getD s.instruction_pointer ' ' = ';') :
    execute_instructionWith runBody s =
      { s with instruction_pointer := s.instruction_pointer + 1, previous_was_right := false } := by
  unfold execute_instructionWith
  rw [if_pos hip, hc]
  rw [if_neg (by decide : ¬ (';' = '[')), if_neg (by decide : ¬ (';' = '{')), if_neg (by decide : ¬ (';' = '=')), if_neg (by decide : ¬ (';' = '>')), if_neg (by decide : ¬ (';' = '<')), if_neg (by decide : ¬ (';' = '^')), if_neg (by decide : ¬ (';' = 'v')), if_neg (by decide : ¬ (';' = dquoteChar)), if_neg (by decide : ¬ (';' = quoteChar)), if_neg (by decide : ¬ (';' = '/')), if_neg (by decide : ¬ (';' = '\\')), if_neg (by decide : ¬ (';' = '!')), if_neg (by decide : ¬ (';' = '&')), if_pos rfl]

lemma exec_eq_question (runBody : OatState → OatState) (s : OatState)
    (hip : s.instruction_pointer < s.program.length)
    (hc : s.program.getD s.instruction_pointer ' ' = '?') :
    execute_instructionWith runBody s =
      { s with instruction_pointer := s.instruction_pointer + 1, previous_was_right := false } := by
  unfold execute_instructionWith
  rw [if_pos hip, hc]
  rw [if_neg (by decide : ¬ ('?' = '[')), if_neg (by decide : ¬ ('?' = '{')), if_neg (by decide : ¬ ('?' = '=')), if_neg (by decide : ¬ ('?' = '>')), if_neg (by decide : ¬ ('?' = '<')), if_neg (by decide : ¬ ('?' = '^')), if_neg (by decide : ¬ ('?' = 'v')), if_neg (by decide : ¬ ('?' = dquoteChar)), if_neg (by decide : ¬ ('?' = quoteChar)), if_neg (by decide : ¬ ('?' = '/')), if_neg (by decide : ¬ ('?' = '\\')), if_neg (by decide : ¬ ('?' = '!')), if_neg (by decide : ¬ ('?' = '&')), if_neg (by decide : ¬ ('?' = ';')), if_pos rfl]

lemma exec_eq_colon (runBody : OatState → OatState) (s : OatState)
    (hip : s.instruction_pointer < s.program.length)
    (hc : s.program.getD s.instruction_pointer ' ' = ':') :
    execute_instructionWith runBody s =
      { delete_cell s with instruction_pointer := s.instruction_pointer + 1, previous_was_right := false } := by
  unfold execute_instructionWith
  rw [if_pos hip, hc]
  rw [if_neg (by decide : ¬ (':' = '[')), if_neg (by decide : ¬ (':' = '{')), if_neg (by decide : ¬ (':' = '=')), if_neg (by decide : ¬ (':' = '>')), if_neg (by decide : ¬ (':' = '<')), if_neg (by decide : ¬ (':' = '^')), if_neg (by decide : ¬ (':' = 'v')), if_neg (by decide : ¬ (':' = dquoteChar)), if_neg (by decide : ¬ (':' = quoteChar)), if_neg (by decide : ¬ (':' = '/')), if_neg (by decide : ¬ (':' = '\\')), if_neg (by decide : ¬ (':' = '!')), if_neg (by decide : ¬ (':' = '&')), if_neg (by decide : ¬ (':' = ';')), if_neg (by decide : ¬ (':' = '?')), if_pos rfl]

lemma exec_eq_tilde (runBody : OatState → OatState) (s : OatState)
    (hip : s.instruction_pointer < s.program.length)
    (hc : s.program.getD s.instruction_pointer ' ' = '~') :
    execute_instructionWith runBody s =
      { input_number s with instruction_pointer := s.instruction_pointer + 1, previous_was_right := false } := by
  unfold execute_instructionWith
  rw [if_pos hip, hc]
  rw [if_neg (by decide : ¬ ('~' = '[')), if_neg (by decide : ¬ ('~' = '{')), if_neg (by decide : ¬ ('~' = '=')), if_neg (by decide : ¬ ('~' = '>')), if_neg (by decide : ¬ ('~' = '<')), if_neg (by decide : ¬ ('~' = '^')), if_neg (by decide : ¬ ('~' = 'v')), if_neg (by decide : ¬ ('~' = dquoteChar)), if_neg (by decide : ¬ ('~' = quoteChar)), if_neg (by decide : ¬ ('~' = '/')), if_neg (by decide : ¬ ('~' = '\\')), if_neg (by decide : ¬ ('~' = '!')), if_neg (by decide : ¬ ('~' = '&')), if_neg (by decide : ¬ ('~' = ';')), if_neg (by decide : ¬ ('~' = '?')), if_neg (by decide : ¬ ('~' = ':')), if_pos rfl]

lemma exec_eq_btick (runBody : OatState → OatState) (s : OatState)
    (hip : s.instruction_pointer < s.program.length)
    (hc : s.program.getD s.instruction_pointer ' ' = btickChar) :
    execute_instructionWith runBody s =
      { input_unicode s with instruction_pointer := s.instruction_pointer + 1, previous_was_right := false } := by
  unfold execute_instructionWith
  rw [if_pos hip, hc]
  rw [if_neg (by decide : ¬ (btickChar = '[')), if_neg (by decide : ¬ (btickChar = '{')), if_neg (by decide : ¬ (btickChar = '=')), if_neg (by decide : ¬ (btickChar = '>')), if_neg (by decide : ¬ (btickChar = '<')), if_neg (by decide : ¬ (btickChar = '^')), if_neg (by decide : ¬ (btickChar = 'v')), if_neg (by decide : ¬ (btickChar = dquoteChar)), if_neg (by decide : ¬ (btickChar = quoteChar)), if_neg (by decide : ¬ (btickChar = '/')), if_neg (by decide : ¬ (btickChar = '\\')), if_neg (by decide : ¬ (btickChar = '!')), if_neg (by decide : ¬ (btickChar = '&')), if_neg (by decide : ¬ (btickChar = ';')), if_neg (by decide : ¬ (btickChar = '?')), if_neg (by decide : ¬ (btickChar = ':')), if_neg (by decide : ¬ (btickChar = '~')), if_pos rfl]

lemma exec_eq_underscore (runBody : OatState → OatState) (s : OatState)
    (hip : s.instruction_pointer < s.program.length)
    (hc : s.program.getD s.instruction_pointer ' ' = '_') :
    execute_instructionWith runBody s =
      { output_number s with instruction_pointer := s.instruction_pointer + 1, previous_was_right := false } := by
  unfold execute_instructionWith
  rw [if_pos hip, hc]
  rw [if_neg (by decide : ¬ ('_' = '[')), if_neg (by decide : ¬ ('_' = '{')), if_neg (by decide : ¬ ('_' = '=')), if_neg (by decide : ¬ ('_' = '>')), if_neg (by decide : ¬ ('_' = '<')), if_neg (by decide : ¬ ('_' = '^')), if_neg (by decide : ¬ ('_' = 'v')), if_neg (by decide : ¬ ('_' = dquoteChar)), if_neg (by decide : ¬ ('_' = quoteChar)), if_neg (by decide : ¬ ('_' = '/')), if_neg (by decide : ¬ ('_' = '\\')), if_neg (by decide : ¬ ('_' = '!')), if_neg (by decide : ¬ ('_' = '&')), if_neg (by decide : ¬ ('_' = ';')), if_neg (by decide : ¬ ('_' = '?')), if_neg (by decide : ¬ ('_' = ':')), if_neg (by decide : ¬ ('_' = '~')), if_neg (by decide : ¬ ('_' = btickChar)), if_pos rfl]

lemma exec_eq_dash (runBody : OatState → OatState) (s : OatState)
    (hip : s.instruction_pointer < s.program.length)
    (hc : s.program.getD s.instruction_pointer ' ' = '-') :
    execute_instructionWith runBody s =
      { output_unicode s with instruction_pointer := s.instruction_pointer + 1, previous_was_right := false } := by
  unfold execute_instructionWith
  rw [if_pos hip, hc]
  rw [if_neg (by decide : ¬ ('-' = '[')), if_neg (by decide : ¬ ('-' = '{')), if_neg (by decide : ¬ ('-' = '=')), if_neg (by decide : ¬ ('-' = '>')), if_neg (by decide : ¬ ('-' = '<')), if_neg (by decide : ¬ ('-' = '^')), if_neg (by decide : ¬ ('-' = 'v')), if_neg (by decide : ¬ ('-' = dquoteChar)), if_neg (by decide : ¬ ('-' = quoteChar)), if_neg (by decide : ¬ ('-' = '/')), if_neg (by decide : ¬ ('-' = '\\')), if_neg (by decide : ¬ ('-' = '!')), if_neg (by decide : ¬ ('-' = '&')), if_neg (by decide : ¬ ('-' = ';')), if_neg (by decide : ¬ ('-' = '?')), if_neg (by decide : ¬ ('-' = ':')), if_neg (by decide : ¬ ('-' = '~')), if_neg (by decide : ¬ ('-' = btickChar)), if_neg (by decide : ¬ ('-' = '_')), if_pos rfl]

lemma exec_eq_percent (runBody : OatState → OatState) (s : OatState)
    (hip : s.instruction_pointer < s.program.length)
    (hc : s.program.getD s.instruction_pointer ' ' = '%') :
    execute_instructionWith runBody s =
      { toggle_readonly s with instruction_pointer := s.instruction_pointer + 1, previous_was_right := false } := by
  unfold execute_instructionWith
  rw [if_pos hip, hc]
  rw [if_neg (by decide : ¬ ('%' = '[')), if_neg (by decide : ¬ ('%' = '{')), if_neg (by decide : ¬ ('%' = '=')), if_neg (by decide : ¬ ('%' = '>')), if_neg (by decide : ¬ ('%' = '<')), if_neg (by decide : ¬ ('%' = '^')), if_neg (by decide : ¬ ('%' = 'v')), if_neg (by decide : ¬ ('%' = dquoteChar)), if_neg (by decide : ¬ ('%' = quoteChar)), if_neg (by decide : ¬ ('%' = '/')), if_neg (by decide : ¬ ('%' = '\\')), if_neg (by decide : ¬ ('%' = '!')), if_neg (by decide : ¬ ('%' = '&')), if_neg (by decide : ¬ ('%' = ';')), if_neg (by decide : ¬ ('%' = '?')), if_neg (by decide : ¬ ('%' = ':')), if_neg (by decide : ¬ ('%' = '~')), if_neg (by decide : ¬ ('%' = btickChar)), if_neg (by decide : ¬ ('%' = '_')), if_neg (by decide : ¬ ('%' = '-')), if_pos rfl]

lemma exec_eq_dot (runBody : OatState → OatState) (s : OatState)
    (hip : s.instruction_pointer < s.program.length)
    (hc : s.program.getD s.instruction_pointer ' ' = '.') :
    execute_instructionWith runBody s =
      { s with instruction_pointer := s.instruction_pointer + 1, previous_was_right := false } := by
  unfold execute_instructionWith
  rw [if_pos hip, hc]
  rw [if_neg (by decide : ¬ ('.' = '[')), if_neg (by decide : ¬ ('.' = '{')), if_neg (by decide : ¬ ('.' = '=')), if_neg (by decide : ¬ ('.' = '>')), if_neg (by decide : ¬ ('.' = '<')), if_neg (by decide : ¬ ('.' = '^')), if_neg (by decide : ¬ ('.' = 'v')), if_neg (by decide : ¬ ('.' = dquoteChar)), if_neg (by decide : ¬ ('.' = quoteChar)), if_neg (by decide : ¬ ('.' = '/')), if_neg (by decide : ¬ ('.' = '\\')), if_neg (by decide : ¬ ('.' = '!')), if_neg (by decide : ¬ ('.' = '&')), if_neg (by decide : ¬ ('.' = ';')), if_neg (by decide : ¬ ('.' = '?')), if_neg (by decide : ¬ ('.' = ':')), if_neg (by decide : ¬ ('.' = '~')), if_neg (by decide : ¬ ('.' = btickChar)), if_neg (by decide : ¬ ('.' = '_')), if_neg (by decide : ¬ ('.' = '-')), if_neg (by decide : ¬ ('.' = '%')), if_pos rfl]

lemma exec_eq_unknown (runBody : OatState → OatState) (s : OatState)
    (hip : s.instruction_pointer < s.program.length)
    (hc : s.program.getD s.instruction_pointer ' ' ∉ recognizedChars) :
    execute_instructionWith runBody s =
      { s with instruction_pointer := s.instruction_pointer + 1, previous_was_right := false } := by
  have h1 : s.program.getD s.instruction_pointer ' ' ≠ '[' := by
    intro h; rw [h] at hc; exact hc (by decide)
  have h2 : s.program.getD s.instruction_pointer ' ' ≠ '{' := by
    intro h; rw [h] at hc; exact hc (by decide)
  have h3 : s.program.getD s.instruction_pointer ' ' ≠ '=' := by
    intro h; rw [h] at hc; exact hc (by decide)
  have h4 : s.program.getD s.instruction_pointer ' ' ≠ '>' := by
    intro h; rw [h] at hc; exact hc (by decide)
  have h5 : s.program.getD s.instruction_pointer ' ' ≠ '<' := by
    intro h; rw [h] at hc; exact hc (by decide)
  have h6 : s.program.getD s.instruction_pointer ' ' ≠ '^' := by
    intro h; rw [h] at hc; exact hc (by decide)
  have h7 : s.program.getD s.instruction_pointer ' ' ≠ 'v' := by
    intro h; rw [h] at hc; exact hc (by decide)
  have h8 : s.program.getD s.instruction_pointer ' ' ≠ dquoteChar := by
    intro h; rw [h] at hc; exact hc (by decide)
  have h9 : s.program.getD s.instruction_pointer ' ' ≠ quoteChar := by
    intro h; rw [h] at hc; exact hc (by decide)
  have h10 : s.program.getD s.instruction_pointer ' ' ≠ '/' := by
    intro h; rw [h] at hc; exact hc (by decide)
  have h11 : s.program.getD s.instruction_pointer ' ' ≠ '\\' := by
    intro h; rw [h] at hc; exact hc (by decide)
  have h12 : s.program.getD s.instruction_pointer ' ' ≠ '!' := by
    intro h; rw [h] at hc; exact hc (by decide)
  have h13 : s.program.getD s.instruction_pointer ' ' ≠ '&' := by
    intro h; rw [h] at hc; exact hc (by decide)
  have h14 : s.program.getD s.instruction_pointer ' ' ≠ ';' := by
    intro h; rw [h] at hc; exact hc (by decide)
  have h15 : s.program.getD s.instruction_pointer ' ' ≠ '?' := by
    intro h; rw [h] at hc; exact hc (by decide)
  have h16 : s.program.getD s.instruction_pointer ' ' ≠ ':' := by
    intro h; rw [h] at hc; exact hc (by decide)
  have h17 : s.program.getD s.instruction_pointer ' ' ≠ '~' := by
    intro h; rw [h] at hc; exact hc (by decide)
  have h18 : s.program.getD s.instruction_pointer ' ' ≠ btickChar := by
    intro h; rw [h] at hc; exact hc (by decide)
  have h19 : s.program.getD s.instruction_pointer ' ' ≠ '_' := by
    intro h; rw [h] at hc; exact hc (by decide)
  have h20 : s.program.getD s.instruction_pointer ' ' ≠ '-' := by
    intro h; rw [h] at hc; exact hc (by decide)
  have h21 : s.program.getD s.instruction_pointer ' ' ≠ '%' := by
    intro h; rw [h] at hc; exact hc (by decide)
  have h22 : s.program.getD s.instruction_pointer ' ' ≠ '.' := by
    intro h; rw [h] at hc; exact hc (by decide)
  unfold execute_instructionWith
  rw [if_pos hip]
  rw [if_neg h1, if_neg h2, if_neg h3, if_neg h4, if_neg h5, if_neg h6, if_neg h7, if_neg h8, if_neg h9, if_neg h10, if_neg h11, if_neg h12, if_neg h13, if_neg h14, if_neg h15, if_neg h16, if_neg h17, if_neg h18, if_neg h19, if_neg h20, if_neg h21, if_neg h22]

lemma pointerInBounds_brace (s : OatState) (h : pointerInBounds s) :
    pointerInBounds (braceStep s) := by
  unfold braceStep
  split
  · split
    · split
      · exact pointerInBounds_of_same h rfl rfl
      · exact pointerInBounds_of_same h rfl rfl
    · exact pointerInBounds_of_same h rfl rfl
  · exact pointerInBounds_of_same h rfl rfl

lemma pointerInBounds_equals (runBody : OatState → OatState)
    (hrb : ∀ s, pointerInBounds s → pointerInBounds (runBody s))
    (s : OatState) (h : pointerInBounds s) :
    pointerInBounds (equalsStep runBody s) := by
  unfold equalsStep
  split
  · split
    · split
      · exact pointerInBounds_of_same (pointerInBounds_call runBody hrb s _ h) rfl rfl
      · exact pointerInBounds_of_same h rfl rfl
    · split
      · split
        · split
          · exact pointerInBounds_of_same h rfl rfl
          · exact pointerInBounds_of_same h rfl rfl
        · split
          · exact pointerInBounds_of_same h rfl rfl
          · exact pointerInBounds_of_same h rfl rfl
      · exact pointerInBounds_of_same h rfl rfl
  · exact pointerInBounds_of_same h rfl rfl

lemma pointerInBounds_slash (s : OatState) (h : pointerInBounds s) :
    pointerInBounds (slashStep s) := by
  unfold slashStep
  split
  · exact pointerInBounds_of_same h rfl rfl
  · exact pointerInBounds_of_same h rfl rfl

lemma pointerInBounds_execute (runBody : OatState → OatState)
    (hrb : ∀ s, pointerInBounds s → pointerInBounds (runBody s))
    (s : OatState) (h : pointerInBounds s) :
    pointerInBounds (execute_instructionWith runBody s) := by
  by_cases hip : s.instruction_pointer < s.program.length
  case neg =>
    rw [exec_eq_stop runBody s hip]
    exact h
  by_cases c1 : s.program.getD s.instruction_pointer ' ' = '['
  · rw [exec_eq_comment runBody s hip c1]
    exact pointerInBounds_of_same h rfl rfl
  by_cases c2 : s.program.getD s.instruction_pointer ' ' = '{'
  · rw [exec_eq_brace runBody s hip c2]
    exact pointerInBounds_of_same (pointerInBounds_brace s h) rfl rfl
  by_cases c3 : s.program.getD s.instruction_pointer ' ' = '='
  · rw [exec_eq_equals runBody s hip c3]
    exact pointerInBounds_of_same (pointerInBounds_equals runBody hrb s h) rfl rfl
  by_cases c4 : s.program.getD s.instruction_pointer ' ' = '>'
  · rw [exec_eq_right runBody s hip c4]
    exact pointerInBounds_of_same (pointerInBounds_move_right s h) rfl rfl
  by_cases c5 : s.program.getD s.instruction_pointer ' ' = '<'
  · rw [exec_eq_left runBody s hip c5]
    exact pointerInBounds_of_same (pointerInBounds_move_left s h) rfl rfl
  by_cases c6 : s.program.getD s.instruction_pointer ' ' = '^'
  · rw [exec_eq_caret runBody s hip c6]
    exact pointerInBounds_of_same (pointerInBounds_increment s h) rfl rfl
  by_cases c7 : s.program.getD s.instruction_pointer ' ' = 'v'
  · rw [exec_eq_vee runBody s hip c7]
    exact pointerInBounds_of_same (pointerInBounds_decrement s h) rfl rfl
  by_cases c8 : s.program.getD s.instruction_pointer ' ' = dquoteChar
  · rw [exec_eq_dquote runBody s hip c8]
    split
    · exact pointerInBounds_of_same (pointerInBounds_insert s h) rfl rfl
    · exact pointerInBounds_of_same h rfl rfl
  by_cases c9 : s.program.getD s.instruction_pointer ' ' = quoteChar
  · rw [exec_eq_quote runBody s hip c9]
    exact pointerInBounds_of_same (pointerInBounds_goto s h) rfl rfl
  by_cases c10 : s.program.getD s.instruction_pointer ' ' = '/'
  · rw [exec_eq_slash runBody s hip c10]
    exact pointerInBounds_of_same (pointerInBounds_slash s h) rfl rfl
  by_cases c11 : s.program.getD s.instruction_pointer ' ' = '\\'
  · rw [exec_eq_backslash runBody s hip c11]
    exact pointerInBounds_of_same h rfl rfl
  by_cases c12 : s.program.getD s.instruction_pointer ' ' = '!'
  · rw [exec_eq_bang runBody s hip c12]
    exact pointerInBounds_of_same (pointerInBounds_logical_not s h) rfl rfl
  by_cases c13 : s.program.getD s.instruction_pointer ' ' = '&'
  · rw [exec_eq_amp runBody s hip c13]
    exact pointerInBounds_of_same (pointerInBounds_distribute s h) rfl rfl
  by_cases c14 : s.program.getD s.instruction_pointer ' ' = ';'
  · rw [exec_eq_semi runBody s hip c14]
    exact pointerInBounds_of_same h rfl rfl
  by_cases c15 : s.program.getD s.instruction_pointer ' ' = '?'
  · rw [exec_eq_question runBody s hip c15]
    exact pointerInBounds_of_same h rfl rfl
  by_cases c16 : s.program.getD s.instruction_pointer ' ' = ':'
  · rw [exec_eq_colon runBody s hip c16]
    exact pointerInBounds_of_same (pointerInBounds_delete s h) rfl rfl
  by_cases c17 : s.program.getD s.instruction_pointer ' ' = '~'
  · rw [exec_eq_tilde runBody s hip c17]
    exact pointerInBounds_of_same (pointerInBounds_input_number s h) rfl rfl
  by_cases c18 : s.program.getD s.instruction_pointer ' ' = btickChar
  · rw [exec_eq_btick runBody s hip c18]
    exact pointerInBounds_of_same (pointerInBounds_input_unicode s h) rfl rfl
  by_cases c19 : s.program.getD s.instruction_pointer ' ' = '_'
  · rw [exec_eq_underscore runBody s hip c19]
    exact pointerInBounds_of_same (pointerInBounds_output_number s h) rfl rfl
  by_cases c20 : s.program.getD s.instruction_pointer ' ' = '-'
  · rw [exec_eq_dash runBody s hip c20]
    exact pointerInBounds_of_same (pointerInBounds_output_unicode s h) rfl rfl
  by_cases c21 : s.program.getD s.instruction_pointer ' ' = '%'
  · rw [exec_eq_percent runBody s hip c21]
    exact pointerInBounds_of_same (pointerInBounds_toggle s h) rfl rfl
  by_cases c22 : s.program.getD s.instruction_pointer ' ' = '.'
  · rw [exec_eq_dot runBody s hip c22]
    exact pointerInBounds_of_same h rfl rfl
  have hc : s.program.getD s.instruction_pointer ' ' ∉ recognizedChars := by
    intro hmem
    simp only [recognizedChars, List.mem_cons, List.not_mem_nil, or_false] at hmem
    rcases hmem with h | h | h | h | h | h | h | h | h | h | h | h | h | h | h | h | h | h | h | h | h | h
    all_goals first
      | exact c1 h | exact c2 h | exact c3 h | exact c4 h | exact c5 h | exact c6 h
      | exact c7 h | exact c8 h | exact c9 h | exact c10 h | exact c11 h | exact c12 h
      | exact c13 h | exact c14 h | exact c15 h | exact c16 h | exact c17 h | exact c18 h
      | exact c19 h | exact c20 h | exact c21 h | exact c22 h
  rw [exec_eq_unknown runBody s hip hc]
  exact pointerInBounds_of_same h rfl rfl

lemma pointerInBounds_runLoop (n : Nat) (s : OatState) (h : pointerInBounds s) :
    pointerInBounds (runLoop n s) := by
  induction n generalizing s with
  | zero => exact h
  | succ n ih =>
    rw [runLoop]
    split
    · exact ih _ (pointerInBounds_execute (runLoop n) (fun t ht => ih t ht) s h)
    · exact h

lemma specJumps_mem (text : List Char) (start e : Nat) (p : Nat) :
    p ∈ specJumps text start e ↔
      start < p ∧ p < e ∧ text.getD p ' ' = quoteChar ∧
        depthFrom text (p - (start + 1)) (start + 1) = 0 := by
  unfold specJumps
  rw [List.mem_filter, List.mem_range'_1, decide_eq_true_eq]
  constructor
  · rintro ⟨⟨h1, h2⟩, h3, h4⟩
    exact ⟨by omega, by omega, h3, h4⟩
  · rintro ⟨h1, h2, h3, h4⟩
    exact ⟨⟨by omega, by omega⟩, h3, h4⟩


/-! ## Frame lemmas: which operations can touch the function table -/

lemma table_frame_move_data_pointer_right (s : OatState) :
    (move_data_pointer_right s).functions = s.functions ∧ (move_data_pointer_right s).program = s.program := by
  unfold move_data_pointer_right
  repeat' split
  all_goals exact ⟨rfl, rfl⟩

lemma table_frame_move_data_pointer_left (s : OatState) :
    (move_data_pointer_left s).functions = s.functions ∧ (move_data_pointer_left s).program = s.program := by
  unfold move_data_pointer_left
  repeat' split
  all_goals exact ⟨rfl, rfl⟩

lemma table_frame_increment_cell (s : OatState) :
    (increment_cell s).functions = s.functions ∧ (increment_cell s).program = s.program := by
  unfold increment_cell
  repeat' split
  all_goals exact ⟨rfl, rfl⟩

lemma table_frame_decrement_cell (s : OatState) :
    (decrement_cell s).functions = s.functions ∧ (decrement_cell s).program = s.program := by
  unfold decrement_cell
  repeat' split
  all_goals exact ⟨rfl, rfl⟩

lemma table_frame_insert_cell_command (s : OatState) :
    (insert_cell_command s).functions = s.functions ∧ (insert_cell_command s).program = s.program := by
  unfold insert_cell_command
  repeat' split
  all_goals exact ⟨rfl, rfl⟩

lemma table_frame_logical_not (s : OatState) :
    (logical_not s).functions = s.functions ∧ (logical_not s).program = s.program := by
  unfold logical_not
  repeat' split
  all_goals exact ⟨rfl, rfl⟩

lemma table_frame_distribute_value (s : OatState) :
    (distribute_value s).functions = s.functions ∧ (distribute_value s).program = s.program := by
  unfold distribute_value
  repeat' split
  all_goals exact ⟨rfl, rfl⟩

lemma table_frame_delete_cell (s : OatState) :
    (delete_cell s).functions = s.functions ∧ (delete_cell s).program = s.program := by
  unfold delete_cell
  repeat' split
  all_goals exact ⟨rfl, rfl⟩

lemma table_frame_input_number (s : OatState) :
    (input_number s).functions = s.functions ∧ (input_number s).program = s.program := by
  unfold input_number
  repeat' split
  all_goals exact ⟨rfl, rfl⟩

lemma table_frame_input_unicode (s : OatState) :
    (input_unicode s).functions = s.functions ∧ (input_unicode s).program = s.program := by
  unfold input_unicode
  repeat' split
  all_goals exact ⟨rfl, rfl⟩

lemma table_frame_output_number (s : OatState) :
    (output_number s).functions = s.functions ∧ (output_number s).program = s.program := by
  unfold output_number
  repeat' split
  all_goals exact ⟨rfl, rfl⟩

lemma table_frame_output_unicode (s : OatState) :
    (output_unicode s).functions = s.functions ∧ (output_unicode s).program = s.program := by
  unfold output_unicode
  repeat' split
  all_goals exact ⟨rfl, rfl⟩

lemma table_frame_toggle_readonly (s : OatState) :
    (toggle_readonly s).functions = s.functions ∧ (toggle_readonly s).program = s.program := by
  unfold toggle_readonly
  repeat' split
  all_goals exact ⟨rfl, rfl⟩

lemma table_frame_goto_command (s : OatState) :
    (goto_command s).functions = s.functions ∧ (goto_command s).program = s.program := by
  unfold goto_command
  repeat' split
  all_goals exact ⟨rfl, rfl⟩

lemma table_frame_slashStep (s : OatState) :
    (slashStep s).functions = s.functions ∧ (slashStep s).program = s.program := by
  unfold slashStep
  repeat' split
  all_goals exact ⟨rfl, rfl⟩

lemma exec_preserves_table (runBody : OatState → OatState) (s : OatState)
    (hp : ∀ c ∈ s.program, c ≠ '{' ∧ c ≠ '=') :
    (execute_instructionWith runBody s).functions = s.functions ∧
    (execute_instructionWith runBody s).program = s.program := by
  by_cases hip : s.instruction_pointer < s.program.length
  case neg =>
    rw [exec_eq_stop runBody s hip]
    exact ⟨rfl, rfl⟩
  have hcm : s.program.getD s.instruction_pointer ' ' ∈ s.program := by
    rw [List.getD_eq_getElem?_getD, List.getElem?_eq_getElem hip]
    exact List.getElem_mem hip
  obtain ⟨hnb, hne⟩ := hp _ hcm
  by_cases k1 : s.program.getD s.instruction_pointer ' ' = '['
  · rw [exec_eq_comment runBody s hip k1]
    exact ⟨rfl, rfl⟩
  by_cases k2 : s.program.getD s.instruction_pointer ' ' = '>'
  · rw [exec_eq_right runBody s hip k2]
    exact ⟨(table_frame_move_data_pointer_right s).1, (table_frame_move_data_pointer_right s).2⟩
  by_cases k3 : s.program.getD s.instruction_pointer ' ' = '<'
  · rw [exec_eq_left runBody s hip k3]
    exact ⟨(table_frame_move_data_pointer_left s).1, (table_frame_move_data_pointer_left s).2⟩
  by_cases k4 : s.program.getD s.instruction_pointer ' ' = '^'
  · rw [exec_eq_caret runBody s hip k4]
    exact ⟨(table_frame_increment_cell s).1, (table_frame_increment_cell s).2⟩
  by_cases k5 : s.program.getD s.instruction_pointer ' ' = 'v'
  · rw [exec_eq_vee runBody s hip k5]
    exact ⟨(table_frame_decrement_cell s).1, (table_frame_decrement_cell s).2⟩
  by_cases k6 : s.program.getD s.instruction_pointer ' ' = dquoteChar
  · rw [exec_eq_dquote runBody s hip k6]
    split
    · exact ⟨(table_frame_insert_cell_command s).1, (table_frame_insert_cell_command s).2⟩
    · exact ⟨rfl, rfl⟩
  by_cases k7 : s.program.getD s.instruction_pointer ' ' = quoteChar
  · rw [exec_eq_quote runBody s hip k7]
    exact ⟨(table_frame_goto_command s).1, (table_frame_goto_command s).2⟩
  by_cases k8 : s.program.getD s.instruction_pointer ' ' = '/'
  · rw [exec_eq_slash runBody s hip k8]
    exact ⟨(table_frame_slashStep s).1, (table_frame_slashStep s).2⟩
  by_cases k9 : s.program.getD s.instruction_pointer ' ' = '\\'
  · rw [exec_eq_backslash runBody s hip k9]
    exact ⟨rfl, rfl⟩
  by_cases k10 : s.program.getD s.instruction_pointer ' ' = '!'
  · rw [exec_eq_bang runBody s hip k10]
    exact ⟨(table_frame_logical_not s).1, (table_frame_logical_not s).2⟩
  by_cases k11 : s.program.getD s.instruction_pointer ' ' = '&'
  · rw [exec_eq_amp runBody s hip k11]
    exact ⟨(table_frame_distribute_value s).1, (table_frame_distribute_value s).2⟩
  by_cases k12 : s.program.getD s.instruction_pointer ' ' = ';'
  · rw [exec_eq_semi runBody s hip k12]
    exact ⟨rfl, rfl⟩
  by_cases k13 : s.program.getD s.instruction_pointer ' ' = '?'
  · rw [exec_eq_question runBody s hip k13]
    exact ⟨rfl, rfl⟩
  by_cases k14 : s.program.getD s.instruction_pointer ' ' = ':'
  · rw [exec_eq_colon runBody s hip k14]
    exact ⟨(table_frame_delete_cell s).1, (table_frame_delete_cell s).2⟩
  by_cases k15 : s.program.getD s.instruction_pointer ' ' = '~'
  · rw [exec_eq_tilde runBody s hip k15]
    exact ⟨(table_frame_input_number s).1, (table_frame_input_number s).2⟩
  by_cases k16 : s.program.getD s.instruction_pointer ' ' = btickChar
  · rw [exec_eq_btick runBody s hip k16]
    exact ⟨(table_frame_input_unicode s).1, (table_frame_input_unicode s).2⟩
  by_cases k17 : s.program.getD s.instruction_pointer ' ' = '_'
  · rw [exec_eq_underscore runBody s hip k17]
    exact ⟨(table_frame_output_number s).1, (table_frame_output_number s).2⟩
  by_cases k18 : s.program.getD s.instruction_pointer ' ' = '-'
  · rw [exec_eq_dash runBody s hip k18]
    exact ⟨(table_frame_output_unicode s).1, (table_frame_output_unicode s).2⟩
  by_cases k19 : s.program.getD s.instruction_pointer ' ' = '%'
  · rw [exec_eq_percent runBody s hip k19]
    exact ⟨(table_frame_toggle_readonly s).1, (table_frame_toggle_readonly s).2⟩
  by_cases k20 : s.program.getD s.instruction_pointer ' ' = '.'
  · rw [exec_eq_dot runBody s hip k20]
    exact ⟨rfl, rfl⟩
  have hc : s.program.getD s.instruction_pointer ' ' ∉ recognizedChars := by
    intro hmem
    simp only [recognizedChars, List.mem_cons, List.not_mem_nil, or_false] at hmem
    rcases hmem with h | h | h | h | h | h | h | h | h | h | h | h | h | h | h | h | h | h | h | h | h | h
    all_goals first
      | exact k1 h | exact hnb h | exact hne h | exact k2 h | exact k3 h | exact k4 h
      | exact k5 h | exact k6 h | exact k7 h | exact k8 h | exact k9 h | exact k10 h
      | exact k11 h | exact k12 h | exact k13 h | exact k14 h | exact k15 h | exact k16 h
      | exact k17 h | exact k18 h | exact k19 h | exact k20 h
  rw [exec_eq_unknown runBody s hip hc]
  exact ⟨rfl, rfl⟩

lemma runLoop_preserves_table (n : Nat) (s : OatState)
    (hp : ∀ c ∈ s.program, c ≠ '\x7b' ∧ c ≠ '=') :
    (runLoop n s).functions = s.functions ∧ (runLoop n s).program = s.program := by
  induction n generalizing s with
  | zero => exact ⟨rfl, rfl⟩
  | succ n ih =>
    rw [runLoop]
    split
    · have h1 := exec_preserves_table (runLoop n) s hp
      have h2 := ih (execute_instructionWith (runLoop n) s) (by rw [h1.2]; exact hp)
      exact ⟨h2.1.trans h1.1, h2.2.trans h1.2⟩
    · exact ⟨rfl, rfl⟩

/-! ## Claim theorems -/

/-- C4: for every program (and carried-over function table, input, and
external import environment) and every number of executed instructions, the data
pointer satisfies `-1 ≤ pointer ≤ len(cells)` after each instruction:
every prefix of the execution, starting from the initial state
(pointer 0, empty tape), stays inside the bounds. -/
theorem data_pointer_in_bounds (program : List Char)
    (fns : List (List Char × List Char)) (stdin : List String)
    (prov : List Char → List (List Char × List Char)) (n : Nat) :
    -1 ≤ (runLoop n (initState program fns stdin prov)).data_pointer ∧
    (runLoop n (initState program fns stdin prov)).data_pointer ≤
      ((runLoop n (initState program fns stdin prov)).tape.length : Int) :=
  pointerInBounds_runLoop n _ (by unfold pointerInBounds initState; norm_num)

/-- C9: deleting an on-tape, non-read-only cell shrinks the tape by one
and clamps the data pointer back onto the tape: a pointer equal to the
new length moves to the new last index, a pointer on an emptied tape
moves to 0, any other pointer is unchanged, and a delete never leaves
the pointer at the after-last sentinel of a non-empty tape. -/
theorem delete_clamps_pointer (s : OatState)
    (h1 : is_on_tape s) (h2 : dpN s ∉ s.readonly_cells) :
    (delete_cell s).tape.length = s.tape.length - 1 ∧
    ((s.data_pointer = ((delete_cell s).tape.length : Int) ∧
        0 < (delete_cell s).tape.length) →
      (delete_cell s).data_pointer = ((delete_cell s).tape.length : Int) - 1) ∧
    ((delete_cell s).tape.length = 0 → (delete_cell s).data_pointer = 0) ∧
    (s.data_pointer < ((delete_cell s).tape.length : Int) →
      (delete_cell s).data_pointer = s.data_pointer) ∧
    (0 < (delete_cell s).tape.length →
      (delete_cell s).data_pointer < ((delete_cell s).tape.length : Int)) := by
  obtain ⟨hd0, hd1⟩ := h1
  have hg : is_on_tape s ∧ dpN s ∉ s.readonly_cells := ⟨⟨hd0, hd1⟩, h2⟩
  have hdlt : dpN s < s.tape.length := by unfold dpN; omega
  have hlen : (s.tape.eraseIdx (dpN s)).length = s.tape.length - 1 := by
    rw [List.length_eraseIdx]
    simp [hdlt]
  unfold delete_cell
  rw [if_pos hg]
  refine ⟨hlen, ?_, ?_, ?_, ?_⟩ <;>
    · simp only [hlen]
      split_ifs <;> intros <;> simp_all <;> omega

/-- C9 witness: deleting the last cell of `[5, 7]` with the pointer on
it leaves tape `[5]` and clamps the pointer to 0. -/
theorem delete_clamps_pointer_witness :
    (is_on_tape deleteState ∧ dpN deleteState ∉ deleteState.readonly_cells) ∧
    ((delete_cell deleteState).tape.length = deleteState.tape.length - 1 ∧
      (delete_cell deleteState).tape = [5] ∧
      (delete_cell deleteState).data_pointer = 0) :=
  ⟨⟨by decide, by decide⟩,
   (delete_clamps_pointer deleteState (by decide) (by decide)).1, by decide, by decide⟩

/-- C6: on an on-tape, non-read-only cell, distribute zeroes the
current cell, adds its old value to every other non-read-only cell,
leaves read-only cells and the tape length unchanged, and changes
neither the data pointer nor the read-only set. -/
theorem distribute_value_spec (s : OatState)
    (h1 : is_on_tape s) (h2 : dpN s ∉ s.readonly_cells) :
    (distribute_value s).tape.length = s.tape.length ∧
    (distribute_value s).tape.getD (dpN s) 0 = 0 ∧
    (∀ j, j < s.tape.length → j ≠ dpN s → j ∉ s.readonly_cells →
      (distribute_value s).tape.getD j 0 = s.tape.getD j 0 + s.tape.getD (dpN s) 0) ∧
    (∀ j, j ∈ s.readonly_cells →
      (distribute_value s).tape.getD j 0 = s.tape.getD j 0) ∧
    (distribute_value s).data_pointer = s.data_pointer ∧
    (distribute_value s).readonly_cells = s.readonly_cells := by
  obtain ⟨hd0, hd1⟩ := h1
  have hg : is_on_tape s ∧ dpN s ∉ s.readonly_cells := ⟨⟨hd0, hd1⟩, h2⟩
  have hdlt : dpN s < s.tape.length := by unfold dpN; omega
  have hlen1 : (s.tape.set (dpN s) 0).length = s.tape.length := by simp
  unfold distribute_value
  rw [if_pos hg]
  refine ⟨?_, ?_, ?_, ?_, rfl, rfl⟩
  · simp only [distributeLoop_length, List.length_set]
  · simp only [distributeLoop_getD, List.length_set]
    rw [if_neg (by intro h; exact h.2.1 rfl)]
    exact getD_set_self _ _ _ hdlt
  · intro j hj hne hro
    simp only [distributeLoop_getD, List.length_set]
    rw [if_pos ⟨by omega, hne, hro⟩]
    rw [getD_set_ne _ _ _ _ (fun h => hne h.symm)]
  · intro j hro
    simp only [distributeLoop_getD, List.length_set]
    rw [if_neg (by intro h; exact h.2.2 hro)]
    rw [getD_set_ne _ _ _ _ (fun h => h2 (by rw [h]; exact hro))]

/-- C6 witness: distributing from cell 1 of `[3, 4, 5]` with cell 0
read-only yields `[3, 0, 9]`. -/
theorem distribute_value_spec_witness :
    (is_on_tape distributeState ∧ dpN distributeState ∉ distributeState.readonly_cells) ∧
    ((distribute_value distributeState).tape.length = distributeState.tape.length ∧
      (distribute_value distributeState).tape = [3, 0, 9]) :=
  ⟨⟨by decide, by decide⟩,
   (distribute_value_spec distributeState (by decide) (by decide)).1, by decide⟩

/-- C3: calling a registered function runs its body in the shared
machine state and then restores exactly the program text, instruction
pointer, and loop-scope stack of the call site, while tape, data
pointer, read-only set (and the rest of the shared world) carry over
from the body's execution. -/
theorem call_restores_control_shares_data (s : OatState) (name code : List Char)
    (fuel : Nat) (hlook : lookupFn s.functions name = some code)
    (_hdone : (bodyRun fuel s code).instruction_pointer ≥ code.length) :
    (call_function fuel s name).program = s.program ∧
    (call_function fuel s name).instruction_pointer = s.instruction_pointer ∧
    (call_function fuel s name).loop_scopes = s.loop_scopes ∧
    (call_function fuel s name).tape = (bodyRun fuel s code).tape ∧
    (call_function fuel s name).data_pointer = (bodyRun fuel s code).data_pointer ∧
    (call_function fuel s name).readonly_cells = (bodyRun fuel s code).readonly_cells ∧
    (call_function fuel s name).functions = (bodyRun fuel s code).functions ∧
    (call_function fuel s name).stdout = (bodyRun fuel s code).stdout := by
  unfold call_function call_functionWith bodyRun
  rw [hlook]
  exact ⟨rfl, rfl, rfl, rfl, rfl, rfl, rfl, rfl⟩

/-- C3 witness: calling `f` (body `^`) from `callState` increments the
shared cell to 2 while the caller's program, instruction pointer, and
scope stack come back unchanged. -/
theorem call_restores_control_shares_data_witness :
    (lookupFn callState.functions ['f'] = some ['^'] ∧
      (bodyRun 5 callState ['^']).instruction_pointer ≥ 1) ∧
    ((call_function 5 callState ['f']).program = callState.program ∧
      (call_function 5 callState ['f']).instruction_pointer = callState.instruction_pointer ∧
      (call_function 5 callState ['f']).loop_scopes = callState.loop_scopes ∧
      (call_function 5 callState ['f']).tape = (bodyRun 5 callState ['^']).tape) ∧
    (call_function 5 callState ['f']).tape = [2] ∧
    (call_function 5 callState ['f']).loop_scopes = [(2, 4)] :=
  ⟨⟨by decide, by decide⟩,
   ⟨(call_restores_control_shares_data callState ['f'] ['^'] 5 (by decide) (by decide)).1,
    (call_restores_control_shares_data callState ['f'] ['^'] 5 (by decide) (by decide)).2.1,
    (call_restores_control_shares_data callState ['f'] ['^'] 5 (by decide) (by decide)).2.2.1,
    (call_restores_control_shares_data callState ['f'] ['^'] 5 (by decide) (by decide)).2.2.2.1⟩,
   by decide, by decide⟩

/-- C10: dispatching the output-number (`_`) or output-character (`-`)
instruction with the data pointer off the tape writes nothing to the
output stream, and every data-model component (tape, pointer, read-only
set, scope stack, function table, program text, input) is unchanged
while the instruction pointer advances by 1. -/
theorem output_offtape_silent (runBody : OatState → OatState) (s : OatState)
    (hip : s.instruction_pointer < s.program.length)
    (hc : s.program.getD s.instruction_pointer ' ' = '_' ∨
          s.program.getD s.instruction_pointer ' ' = '-')
    (hoff : ¬ is_on_tape s) :
    (execute_instructionWith runBody s).stdout = s.stdout ∧
    (execute_instructionWith runBody s).tape = s.tape ∧
    (execute_instructionWith runBody s).data_pointer = s.data_pointer ∧
    (execute_instructionWith runBody s).readonly_cells = s.readonly_cells ∧
    (execute_instructionWith runBody s).loop_scopes = s.loop_scopes ∧
    (execute_instructionWith runBody s).functions = s.functions ∧
    (execute_instructionWith runBody s).program = s.program ∧
    (execute_instructionWith runBody s).stdin = s.stdin ∧
    (execute_instructionWith runBody s).instruction_pointer = s.instruction_pointer + 1 := by
  rcases hc with hc | hc
  · rw [exec_eq_underscore runBody s hip hc]
    unfold output_number
    rw [if_neg hoff]
    exact ⟨rfl, rfl, rfl, rfl, rfl, rfl, rfl, rfl, rfl⟩
  · rw [exec_eq_dash runBody s hip hc]
    unfold output_unicode
    rw [if_neg hoff]
    exact ⟨rfl, rfl, rfl, rfl, rfl, rfl, rfl, rfl, rfl⟩

/-- C10 witness: on an empty tape, dispatching `_` leaves the output
empty and only advances the instruction pointer. -/
theorem output_offtape_silent_witness :
    (offTapeState.instruction_pointer < offTapeState.program.length ∧
      offTapeState.program.getD offTapeState.instruction_pointer ' ' = '_' ∧
      ¬ is_on_tape offTapeState) ∧
    ((execute_instructionWith (runLoop 0) offTapeState).stdout = offTapeState.stdout ∧
      (execute_instructionWith (runLoop 0) offTapeState).tape = offTapeState.tape ∧
      (execute_instructionWith (runLoop 0) offTapeState).data_pointer =
        offTapeState.data_pointer) :=
  ⟨⟨by decide, by decide, by decide⟩,
   (output_offtape_silent (runLoop 0) offTapeState (by decide)
      (Or.inl (by decide)) (by decide)).1,
   (output_offtape_silent (runLoop 0) offTapeState (by decide)
      (Or.inl (by decide)) (by decide)).2.1,
   (output_offtape_silent (runLoop 0) offTapeState (by decide)
      (Or.inl (by decide)) (by decide)).2.2.1⟩

/-- C8 counterexample: the claim fails as stated, because a body may
itself redefine the same name while it runs.  Defining `f` with body
`{@f@@}` and then calling `f` leaves the table entry for `f` equal to
the empty body, not the registered one. -/
theorem define_call_roundtrip_cex :
    lookupFn (call_function 20
        (define_function (initState0 []) ['f'] ['{', '@', 'f', '@', '@', '}'])
        ['f']).functions ['f'] = some [] ∧
    some ([] : List Char) ≠ some ['{', '@', 'f', '@', '@', '}'] := by decide

/-- C8 (amended): for a body that contains neither the
function-definition lead character `{` nor the `=` lead character (so
that executing it can neither redefine nor import over the name),
define followed by call leaves the Function Table entry for the name
identical to the registered body. -/
theorem define_call_roundtrip_no_table_ops (s : OatState) (name body : List Char)
    (fuel : Nat) (hbody : ∀ c ∈ body, c ≠ '{' ∧ c ≠ '=') :
    lookupFn (call_function fuel (define_function s name body) name).functions name
      = some body := by
  have hdef : lookupFn (define_function s name body).functions name = some body := by
    show (if name = name then some body else lookupFn s.functions name) = some body
    rw [if_pos rfl]
  unfold call_function call_functionWith
  rw [hdef]
  have hpres := runLoop_preserves_table fuel
    { define_function s name body with
      program := body, instruction_pointer := 0, loop_scopes := [] } hbody
  show lookupFn (runLoop fuel
    { define_function s name body with
      program := body, instruction_pointer := 0, loop_scopes := [] }).functions name
    = some body
  rw [hpres.1]
  exact hdef

/-- C8 witness: defining `g` with body `^` and calling it leaves the
table entry for `g` equal to `^`. -/
theorem define_call_roundtrip_no_table_ops_witness :
    (∀ c ∈ (['^'] : List Char), c ≠ '{' ∧ c ≠ '=') ∧
    lookupFn (call_function 5 (define_function (initState0 []) ['g'] ['^'])
        ['g']).functions ['g'] = some ['^'] :=
  ⟨by decide,
   define_call_roundtrip_no_table_ops (initState0 []) ['g'] ['^'] 5 (by decide)⟩

/-- C7 counterexample: the claim fails as stated, because dispatching
an unrecognised character resets the preceded-by-right-move flag, so
inserting whitespace between `>` and `"` changes observable behaviour:
`>"` creates a cell while `> "` does not. -/
theorem whitespace_changes_behavior_cex :
    ' ' ∉ recognizedChars ∧
    (runLoop 5 (initState0 ['>', dquoteChar])).tape = [0] ∧
    (runLoop 5 (initState0 ['>', ' ', dquoteChar])).tape = [] ∧
    ([] : List Nat) ≠ [0] := by decide

/-- C7 (amended): dispatching a character that is not a recognised
instruction or multi-character lead advances the instruction pointer by
exactly 1 and resets the preceded-by-right-move flag to false, leaving
every other component of the state unchanged (so such a character can
still affect a directly following `"`). -/
theorem unknown_char_advances (runBody : OatState → OatState) (s : OatState)
    (hip : s.instruction_pointer < s.program.length)
    (hc : s.program.getD s.instruction_pointer ' ' ∉ recognizedChars) :
    execute_instructionWith runBody s =
      { s with instruction_pointer := s.instruction_pointer + 1,
               previous_was_right := false } :=
  exec_eq_unknown runBody s hip hc

/-- C7 witness: dispatching the unrecognised character `x` only
advances the instruction pointer and clears the flag. -/
theorem unknown_char_advances_witness :
    (unknownCharState.instruction_pointer < unknownCharState.program.length ∧
      unknownCharState.program.getD unknownCharState.instruction_pointer ' '
        ∉ recognizedChars) ∧
    execute_instructionWith (runLoop 0) unknownCharState =
      { unknownCharState with
        instruction_pointer := unknownCharState.instruction_pointer + 1,
        previous_was_right := false } :=
  ⟨⟨by decide, by decide⟩,
   unknown_char_advances (runLoop 0) unknownCharState (by decide) (by decide)⟩

/-- C1 counterexample: the claim fails as stated for a goto dispatched
immediately after the scope-open character: in the program `/'\` the
goto at offset 1 has cell value 0 and the scope `(0, 2)` on top of the
stack, yet the instruction pointer afterwards is 2, not `end + 1 = 3`. -/
theorem goto_slash_escape_cex :
    (runLoop 1 (initState0 ['/', quoteChar, '\\'])).loop_scopes = [(0, 2)] ∧
    (runLoop 1 (initState0 ['/', quoteChar, '\\'])).instruction_pointer = 1 ∧
    (runLoop 1 (initState0 ['/', quoteChar, '\\'])).program.getD 1 ' ' = quoteChar ∧
    get_cell_value (runLoop 1 (initState0 ['/', quoteChar, '\\']))
      (runLoop 1 (initState0 ['/', quoteChar, '\\'])).data_pointer = 0 ∧
    (goto_command (runLoop 1 (initState0 ['/', quoteChar, '\\']))).instruction_pointer
      = 2 ∧
    (goto_command (runLoop 1 (initState0 ['/', quoteChar, '\\']))).instruction_pointer
      ≠ 2 + 1 := by decide

/-- C1 (amended): a goto dispatched with cell value 0 sets the
instruction pointer to `end + 1` for the innermost scope `(start, end)`
whenever the preceding character is not the scope-open character `/`
and the loop-scope stack is non-empty; in the two excluded cases (goto
directly after `/`, or empty scope stack) the pointer instead advances
by exactly 1. -/
theorem goto_zero_exits_scope (s : OatState) (start e : Nat)
    (rest : List (Nat × Nat))
    (hv : get_cell_value s s.data_pointer = 0) :
    (¬ (s.instruction_pointer > 0 ∧
          s.program.getD (s.instruction_pointer - 1) ' ' = '/') →
      s.loop_scopes = (start, e) :: rest →
      goto_command s = { s with instruction_pointer := e + 1 }) ∧
    ((s.instruction_pointer > 0 ∧
        s.program.getD (s.instruction_pointer - 1) ' ' = '/') →
      goto_command s = { s with instruction_pointer := s.instruction_pointer + 1 }) ∧
    (s.loop_scopes = [] →
      goto_command s = { s with instruction_pointer := s.instruction_pointer + 1 }) := by
  refine ⟨?_, ?_, ?_⟩
  · intro hpre hsc
    unfold goto_command
    rw [if_neg hpre, hsc]
    simp [hv]
  · intro hpre
    unfold goto_command
    rw [if_pos hpre]
  · intro hsc
    by_cases hpre : (s.instruction_pointer > 0 ∧
        s.program.getD (s.instruction_pointer - 1) ' ' = '/')
    · unfold goto_command
      rw [if_pos hpre]
    · unfold goto_command
      rw [if_neg hpre, hsc]

/-- C1 witness: in `gotoZeroState` (cell value 0, scope `(1, 5)` on the
stack, preceding character `c`), the goto lands at offset 6. -/
theorem goto_zero_exits_scope_witness :
    get_cell_value gotoZeroState gotoZeroState.data_pointer = 0 ∧
    goto_command gotoZeroState = { gotoZeroState with instruction_pointer := 6 } :=
  ⟨by decide,
   (goto_zero_exits_scope gotoZeroState 1 5 [] (by decide)).1 (by decide) (by decide)⟩

/-- C2: a goto dispatched with cell value `v ≥ 1`, not directly after
`/`, with innermost scope `(start, end)`: the jump points are exactly
the offsets strictly between `start` and `end` holding the goto
character at relative nesting depth 0, in strictly increasing order;
if `v` is at most their count the instruction pointer is set to the
`v`-th of them (1-based), and otherwise the instruction pointer
advances by exactly 1; nothing else in the state changes. -/
theorem goto_value_dispatch (s : OatState) (start e : Nat)
    (rest : List (Nat × Nat))
    (hpre : ¬ (s.instruction_pointer > 0 ∧
        s.program.getD (s.instruction_pointer - 1) ' ' = '/'))
    (hscopes : s.loop_scopes = (start, e) :: rest)
    (hv : 1 ≤ get_cell_value s s.data_pointer) :
    (goto_command s =
      if get_cell_value s s.data_pointer ≤ (specJumps s.program start e).length then
        { s with instruction_pointer :=
            ((specJumps s.program start e).getD
              (get_cell_value s s.data_pointer - 1) 0) }
      else { s with instruction_pointer := s.instruction_pointer + 1 }) ∧
    (specJumps s.program start e).Pairwise (· < ·) ∧
    (∀ p, p ∈ specJumps s.program start e ↔
      (start < p ∧ p < e ∧ s.program.getD p ' ' = quoteChar ∧
        depthFrom s.program (p - (start + 1)) (start + 1) = 0)) := by
  refine ⟨?_, specJumps_sorted _ _ _, specJumps_mem _ _ _⟩
  have hv0 : ¬ (get_cell_value s s.data_pointer = 0) := by omega
  simp only [goto_command, if_neg hpre, hscopes, if_neg hv0, collectJumps_eq_specJumps]
  rw [if_congr (by omega :
    (1 ≤ get_cell_value s s.data_pointer ∧
      get_cell_value s s.data_pointer ≤ (specJumps s.program start e).length) ↔
    (get_cell_value s s.data_pointer ≤ (specJumps s.program start e).length)) rfl rfl]

/-- C2 witness: in `gotoJumpState` (cell value 2, scope `(0, 6)`,
depth-0 goto points at 1, 3, 5), the goto jumps to offset 3, the second
point in source order. -/
theorem goto_value_dispatch_witness :
    (¬ (gotoJumpState.instruction_pointer > 0 ∧
        gotoJumpState.program.getD (gotoJumpState.instruction_pointer - 1) ' ' = '/') ∧
      1 ≤ get_cell_value gotoJumpState gotoJumpState.data_pointer) ∧
    (goto_command gotoJumpState =
      if get_cell_value gotoJumpState gotoJumpState.data_pointer ≤
          (specJumps gotoJumpState.program 0 6).length then
        { gotoJumpState with instruction_pointer :=
            ((specJumps gotoJumpState.program 0 6).getD
              (get_cell_value gotoJumpState gotoJumpState.data_pointer - 1) 0) }
      else { gotoJumpState with
             instruction_pointer := gotoJumpState.instruction_pointer + 1 }) ∧
    specJumps gotoJumpState.program 0 6 = [1, 3, 5] ∧
    (goto_command gotoJumpState).instruction_pointer = 3 :=
  ⟨⟨by decide, by decide⟩,
   (goto_value_dispatch gotoJumpState 0 6 [] (by decide) rfl (by decide)).1,
   by decide, by decide⟩

/-- C5: structural edits renumber the read-only set so that protected
cells stay protected.  Inserting a new cell before index `k`
(`k = insertIndex s`, determined by the data pointer) keeps read-only
indices below `k` and shifts the rest up by one; deleting the on-tape,
non-read-only cell at index `k = dpN s` keeps read-only indices below
`k` and shifts those above `k` down by one (membership stated
positionally: `j` is protected afterwards iff the cell that now sits at
`j` was protected before).  The hypothesis that read-only indices lie
on the tape holds in every reachable state, since cells are only marked
read-only while the pointer is on them. -/
theorem structural_edit_renumbers_readonly (s : OatState)
    (hwf : ∀ i ∈ s.readonly_cells, i < s.tape.length) :
    (∀ j, j ∈ (insert_cell_command s).readonly_cells ↔
      ((j < insertIndex s ∧ j ∈ s.readonly_cells) ∨
       (insertIndex s < j ∧ j - 1 ∈ s.readonly_cells))) ∧
    (is_on_tape s → dpN s ∉ s.readonly_cells →
      ∀ j, j ∈ (delete_cell s).readonly_cells ↔
        ((j < dpN s ∧ j ∈ s.readonly_cells) ∨
         (dpN s ≤ j ∧ j + 1 ∈ s.readonly_cells))) := by
  constructor
  · intro j
    unfold insert_cell_command insertIndex
    split_ifs with h1 h2 h3
    · constructor
      · intro hj
        exact absurd (hwf j hj) (by omega)
      · rintro (⟨hlt, _⟩ | ⟨_, hj⟩)
        · exact absurd hlt (by omega)
        · exact absurd (hwf _ hj) (by omega)
    · simp only [Finset.mem_image]
      constructor
      · rintro ⟨i, hi, rfl⟩
        right
        refine ⟨by omega, ?_⟩
        simpa using hi
      · rintro (⟨hlt, _⟩ | ⟨hpos, hj⟩)
        · exact absurd hlt (by omega)
        · exact ⟨j - 1, hj, by omega⟩
    · constructor
      · intro hj
        exact Or.inl ⟨hwf j hj, hj⟩
      · rintro (⟨_, hj⟩ | ⟨hgt, hj⟩)
        · exact hj
        · exact absurd (hwf _ hj) (by omega)
    · simp only [Finset.mem_image]
      constructor
      · rintro ⟨i, hi, hij⟩
        by_cases hk : dpN s ≤ i
        · rw [if_pos hk] at hij
          right
          refine ⟨by omega, ?_⟩
          rw [← hij]
          simpa using hi
        · rw [if_neg hk] at hij
          left
          exact ⟨by omega, hij ▸ hi⟩
      · rintro (⟨hlt, hj⟩ | ⟨hgt, hj⟩)
        · exact ⟨j, hj, if_neg (by omega)⟩
        · refine ⟨j - 1, hj, ?_⟩
          rw [if_pos (by omega)]
          omega
  · intro hot hro j
    unfold delete_cell
    rw [if_pos ⟨hot, hro⟩]
    simp only [Finset.mem_image, Finset.mem_erase]
    constructor
    · rintro ⟨i, ⟨hine, hi⟩, hij⟩
      by_cases hk : dpN s < i
      · rw [if_pos hk] at hij
        right
        refine ⟨by omega, ?_⟩
        rw [← hij]
        have : i - 1 + 1 = i := by omega
        rw [this]
        exact hi
      · rw [if_neg hk] at hij
        left
        exact ⟨by omega, hij ▸ hi⟩
    · rintro (⟨hlt, hj⟩ | ⟨hge, hj⟩)
      · exact ⟨j, ⟨by omega, hj⟩, if_neg (by omega)⟩
      · refine ⟨j + 1, ⟨by omega, hj⟩, ?_⟩
        rw [if_pos (by omega)]
        omega

/-- C5 witness: in `renumberState` (tape `[1, 2, 3]`, pointer 1,
read-only `{0, 2}`), inserting yields read-only `{0, 3}` and deleting
yields read-only `{0, 1}`. -/
theorem structural_edit_renumbers_readonly_witness :
    (∀ i ∈ renumberState.readonly_cells, i < renumberState.tape.length) ∧
    (3 ∈ (insert_cell_command renumberState).readonly_cells ↔
      ((3 < insertIndex renumberState ∧ 3 ∈ renumberState.readonly_cells) ∨
       (insertIndex renumberState < 3 ∧ 2 ∈ renumberState.readonly_cells))) ∧
    (1 ∈ (delete_cell renumberState).readonly_cells ↔
      ((1 < dpN renumberState ∧ 1 ∈ renumberState.readonly_cells) ∨
       (dpN renumberState ≤ 1 ∧ 2 ∈ renumberState.readonly_cells))) ∧
    (insert_cell_command renumberState).readonly_cells = {0, 3} ∧
    (delete_cell renumberState).readonly_cells = {0, 1} :=
  ⟨by decide,
   (structural_edit_renumbers_readonly renumberState (by decide)).1 3,
   (structural_edit_renumbers_readonly renumberState (by decide)).2
     (by decide) (by decide) 1,
   by decide, by decide⟩
